import Mathlib

/-!
# SDL_image 1.2.9, `IMG_png.c`: the PNG sniffer and loader

A shallow embedding of `src/T/SDL/SDL_IMAGE/1.2.9/src/IMG_png.c` (the
`LOAD_PNG` build), followed by theorems about it.

* C locals become fields of explicit records, `goto done` becomes an early
  return into `IMG_LoadPNG_RW_done`.
* The libpng engine, the SDL allocator and the host byte order are not part of
  this file of the repository; what they answer is an explicit parameter
  (`Libpng`, `Host`), so every theorem holds for every engine behaviour.
* C `int` / `Uint32` arithmetic and conversions are written out (`int_wrap`,
  `toInt32`, `toUint32`).
-/

namespace IMG_png

/-! ## The stream collaborator (`SDL_RWops`) -/

/-- Modelled from the spec: the Stream interface of `SDL_rwops.h` (absent
from the tree), "an external, position-seekable byte source" with `tell`,
`seek(position)` and `read(buffer, elementSize, count) -> elementsRead`.
`data` is the whole byte content, `pos` the current position. -/
structure SDL_RWops where
  data : List Nat
  pos : Nat
deriving DecidableEq, Repr

/-- Modelled from the spec: `SDL_RWtell(src)`, the current position. -/
def SDL_RWtell (src : SDL_RWops) : Nat := src.pos

/-- Modelled from the spec: `SDL_RWseek(src, offset, RW_SEEK_SET)`. -/
def SDL_RWseek (src : SDL_RWops) (offset : Nat) : SDL_RWops :=
  { src with pos := offset }

/-- Modelled from the spec: `SDL_RWread(src, ptr, size, maxnum)`. At most
`size * maxnum` bytes are copied from the current position, the position
advances by what was copied, and the count of whole objects read is returned.
The result is (bytes stored in `ptr`, objects read, stream afterwards). -/
def SDL_RWread (src : SDL_RWops) (size maxnum : Nat) : List Nat × Nat × SDL_RWops :=
  let bytes := (src.data.drop src.pos).take (size * maxnum)
  (bytes, bytes.length / size, { src with pos := src.pos + bytes.length })

/-! ## `IMG_isPNG` (lines 268-288) -/

/-- The function `IMG_isPNG`: `none` is the NULL stream. Returns the C `int`
result together with the stream as the call leaves it. `magic[k]` is read with
`getD`; the comparison is only reached after a full read of 4 bytes. -/
def IMG_isPNG (src : Option SDL_RWops) : Int × Option SDL_RWops :=
  match src with
  | none => (0, none)
  | some s =>
    let start := SDL_RWtell s
    let is_PNG : Int := 0
    let (magic, n, s1) := SDL_RWread s 1 4
    let is_PNG : Int :=
      if n = 4 then
        if magic.getD 0 0 = 0x89 ∧ magic.getD 1 0 = 80 ∧
           magic.getD 2 0 = 78 ∧ magic.getD 3 0 = 71 then 1 else is_PNG
      else is_PNG
    let s2 := SDL_RWseek s1 start
    (is_PNG, some s2)

/-- Calling `IMG_isPNG` `n` times in a row on the same stream object: the list
of returned values, in call order, and the stream after the last call. -/
def IMG_isPNG_repeat : Nat → Option SDL_RWops → List Int × Option SDL_RWops
  | 0, src => ([], src)
  | n + 1, src =>
    let (r, src1) := IMG_isPNG src
    let (rs, src2) := IMG_isPNG_repeat n src1
    (r :: rs, src2)

/-! ## `IMG_InitPNG` / `IMG_QuitPNG` (lines 97-264) -/

/-- The value a C `int` holds after an arithmetic result `x`: 32 bits, two's
complement, so INT_MAX + 1 is INT_MIN. -/
def int_wrap (x : Int) : Int := (x + 2 ^ 31) % 2 ^ 32 - 2 ^ 31

/-- The static `libpng` record, as far as the two entry points touch it:
`loaded` is the reference count (a C `int`), `handle` the value last stored by
`SDL_LoadObject` (`none` = never stored / NULL), and `bound` says that the
function-pointer table has been filled. `unloads` counts the calls of
`SDL_UnloadObject` made so far and `loads` the successful `SDL_LoadObject`
calls, so `loads - unloads` is the number of library objects currently held. -/
structure LibpngBinding where
  loaded : Int
  handle : Option Nat
  bound : Bool
  loads : Nat
  unloads : Nat
deriving DecidableEq, Repr

/-- The zero-filled static storage the program starts with. -/
def LibpngBinding.unloaded : LibpngBinding :=
  { loaded := 0, handle := none, bound := false, loads := 0, unloads := 0 }

/-- What the dynamic loader answers: the handle `SDL_LoadObject` returns
(`none` = NULL) and, per symbol name, whether `SDL_LoadFunction` finds it. -/
structure Loader where
  SDL_LoadObject : Option Nat
  SDL_LoadFunction : String → Bool

/-- The sixteen symbols `IMG_InitPNG` resolves, in source order. -/
def png_symbols : List String :=
  ["png_create_info_struct", "png_create_read_struct", "png_destroy_read_struct",
   "png_get_IHDR", "png_get_io_ptr", "png_get_tRNS", "png_get_valid",
   "png_read_image", "png_read_info", "png_read_update_info", "png_set_expand",
   "png_set_gray_to_rgb", "png_set_packing", "png_set_read_fn", "png_set_strip_16",
   "png_sig_cmp"]

/-- The chain of `SDL_LoadFunction` calls of the dynamic `IMG_InitPNG`:
`true` when every symbol resolves, `false` at the first one that does not
(the caller then unloads the object and returns -1). -/
def load_functions (ld : Loader) : List String → Bool
  | [] => true
  | name :: rest => if ld.SDL_LoadFunction name then load_functions ld rest else false

/-- The function `IMG_InitPNG` under `LOAD_PNG_DYNAMIC` (lines 97-220). -/
def IMG_InitPNG_dynamic (ld : Loader) (libpng : LibpngBinding) : Int × LibpngBinding :=
  if libpng.loaded = 0 then
    match ld.SDL_LoadObject with
    | none => (-1, { libpng with handle := none })
    | some h =>
      let libpng := { libpng with handle := some h, loads := libpng.loads + 1 }
      if load_functions ld png_symbols then
        (0, { libpng with bound := true, loaded := int_wrap (libpng.loaded + 1) })
      else
        (-1, { libpng with unloads := libpng.unloads + 1 })
  else
    (0, { libpng with loaded := int_wrap (libpng.loaded + 1) })

/-- The function `IMG_QuitPNG` under `LOAD_PNG_DYNAMIC` (lines 221-230). -/
def IMG_QuitPNG_dynamic (libpng : LibpngBinding) : LibpngBinding :=
  if libpng.loaded = 0 then libpng
  else
    let libpng :=
      if libpng.loaded = 1 then { libpng with unloads := libpng.unloads + 1 } else libpng
    { libpng with loaded := int_wrap (libpng.loaded - 1) }

/-- The function `IMG_InitPNG` of the static build (lines 232-255). -/
def IMG_InitPNG (libpng : LibpngBinding) : Int × LibpngBinding :=
  let libpng := if libpng.loaded = 0 then { libpng with bound := true } else libpng
  (0, { libpng with loaded := int_wrap (libpng.loaded + 1) })

/-- The function `IMG_QuitPNG` of the static build (lines 256-264): the
`loaded == 1` branch is empty. -/
def IMG_QuitPNG (libpng : LibpngBinding) : LibpngBinding :=
  if libpng.loaded = 0 then libpng
  else
    let libpng := if libpng.loaded = 1 then libpng else libpng
    { libpng with loaded := int_wrap (libpng.loaded - 1) }

/-- A run of `n` calls of the dynamic `IMG_InitPNG`: the returned values in
call order and the binding afterwards. -/
def init_dynamic_times (ld : Loader) : Nat → LibpngBinding → List Int × LibpngBinding
  | 0, b => ([], b)
  | n + 1, b =>
    let (r, b1) := IMG_InitPNG_dynamic ld b
    let (rs, b2) := init_dynamic_times ld n b1
    (r :: rs, b2)

/-- A run of `n` calls of the static `IMG_InitPNG`. -/
def init_times : Nat → LibpngBinding → List Int × LibpngBinding
  | 0, b => ([], b)
  | n + 1, b =>
    let (r, b1) := IMG_InitPNG b
    let (rs, b2) := init_times n b1
    (r :: rs, b2)

/-- A run of `n` calls of the dynamic `IMG_QuitPNG`. -/
def quit_dynamic_times : Nat → LibpngBinding → LibpngBinding
  | 0, b => b
  | n + 1, b => quit_dynamic_times n (IMG_QuitPNG_dynamic b)

/-- A run of `n` calls of the static `IMG_QuitPNG`. -/
def quit_times : Nat → LibpngBinding → LibpngBinding
  | 0, b => b
  | n + 1, b => quit_times n (IMG_QuitPNG b)

/-! ## libpng's data, as far as the loader reads it -/

/-- Modelled from the spec: `PNG_COLOR_TYPE_GRAY` of png.h (absent from the
tree), the colour type "Grayscale". -/
def PNG_COLOR_TYPE_GRAY : Nat := 0

/-- Modelled from the spec: `PNG_COLOR_TYPE_RGB` of png.h, "RGB". -/
def PNG_COLOR_TYPE_RGB : Nat := 2

/-- Modelled from the spec: `PNG_COLOR_TYPE_PALETTE` of png.h,
"Palette/Indexed". -/
def PNG_COLOR_TYPE_PALETTE : Nat := 3

/-- Modelled from the spec: `PNG_COLOR_TYPE_GRAY_ALPHA` of png.h,
"Grayscale+Alpha". -/
def PNG_COLOR_TYPE_GRAY_ALPHA : Nat := 4

/-- Modelled from the spec: `PNG_COLOR_TYPE_RGB_ALPHA` of png.h, "RGB+Alpha". -/
def PNG_COLOR_TYPE_RGB_ALPHA : Nat := 6

/-- A palette entry of libpng (`png_color`, three `png_byte`s). -/
structure png_color where
  red : Nat
  green : Nat
  blue : Nat
deriving DecidableEq, Repr, Inhabited

/-- The colour named by a tRNS chunk (`png_color_16`): 16-bit fields. -/
structure png_color_16 where
  index : Nat
  red : Nat
  green : Nat
  blue : Nat
  gray : Nat
deriving DecidableEq, Repr, Inhabited

/-- The fields of libpng's info struct that the loader reads, directly or
through `png_get_IHDR`, `png_get_valid` and `png_get_tRNS`. `num_palette` is
`palette.length` and `num_trans` is `trans.length`; `tRNS_valid` is
`png_get_valid(png_ptr, info_ptr, PNG_INFO_tRNS) != 0`. -/
structure png_info where
  width : Nat
  height : Nat
  bit_depth : Nat
  color_type : Nat
  interlace_type : Nat
  channels : Nat
  palette : List png_color
  tRNS_valid : Bool
  trans : List Nat
  trans_values : png_color_16
deriving DecidableEq, Repr, Inhabited

/-- The transform requests the loader can make on the read struct. -/
inductive Transform where
  | strip_16
  | packing
  | expand
  | gray_to_rgb
deriving DecidableEq, Repr

/-- The engine (libpng, reached through the `libpng` function table) as a
parameter. Allocation calls answer whether they return non-NULL. A reading
call answers with the sizes of the successive `png_read_data` calls it makes
on the stream and with its outcome, where `none` / `false` is `png_error`,
that is a `longjmp` back to the loader's `setjmp`. `png_read_update_info`
receives the transform requests made so far, in call order. -/
structure Libpng where
  png_create_read_struct : Bool
  png_create_info_struct : Bool
  png_read_info : SDL_RWops → List Nat × Option png_info
  png_read_update_info : List Transform → png_info → Option png_info
  png_read_image : List Transform → png_info → SDL_RWops → List Nat × Bool

/-- The read callback `png_read_data` (lines 291-297): one
`SDL_RWread(src, area, size, 1)`; only the stream matters here. -/
def png_read_data (src : SDL_RWops) (size : Nat) : SDL_RWops :=
  (SDL_RWread src size 1).2.2

/-! ## The SDL surface -/

/-- An `SDL_Color`. -/
structure SDL_Color where
  r : Nat
  g : Nat
  b : Nat
  unused : Nat
deriving DecidableEq, Repr, Inhabited

/-- An `SDL_Palette`: `colors` is the entry array as memory indexed from 0. -/
structure SDL_Palette where
  ncolors : Nat
  colors : Nat → SDL_Color

/-- An `SDL_PixelFormat`, as far as the loader and `SDL_MapRGB` use it. -/
structure SDL_PixelFormat where
  palette : Option SDL_Palette
  BitsPerPixel : Nat
  Rloss : Nat
  Gloss : Nat
  Bloss : Nat
  Rshift : Nat
  Gshift : Nat
  Bshift : Nat
  Rmask : Nat
  Gmask : Nat
  Bmask : Nat
  Amask : Nat
  colorkey : Nat

/-- An `SDL_Surface`: `SRCCOLORKEY` is that bit of `flags`. Pixel bytes are
written by the engine through the row pointers and are not represented. -/
structure SDL_Surface where
  SRCCOLORKEY : Bool
  format : SDL_PixelFormat
  w : Nat
  h : Nat
  pitch : Nat

/-- The host byte order, the value of `SDL_BYTEORDER`. -/
inductive ByteOrder where
  | SDL_LIL_ENDIAN
  | SDL_BIG_ENDIAN
deriving DecidableEq, Repr

/-- What the allocator chooses for a new surface. -/
structure SurfaceStorage where
  pitch : Nat
  palette : Option SDL_Palette

/-- The host as a parameter: byte order, whether `IMG_Init(IMG_INIT_PNG)`
succeeds, whether `SDL_AllocSurface` finds memory (and then the row pitch and
the palette slot it sets up for that width, height and depth), whether
`malloc` of the row table succeeds, and SDL's palette lookup. -/
structure Host where
  SDL_BYTEORDER : ByteOrder
  IMG_Init_PNG : Bool
  alloc_surface : Nat → Nat → Nat → Option SurfaceStorage
  malloc_row_pointers : Bool
  SDL_FindColor : SDL_Palette → Nat → Nat → Nat → Nat

/-- Modelled from the spec: the first loop of SDL's format set-up for a
channel ("a bit pattern identifying which bits of a packed pixel value belong
to a given channel"): the number of zero bits below the mask, counted over at
most `fuel` bits. -/
def mask_zeros : Nat → Nat → Nat
  | 0, _ => 0
  | fuel + 1, mask => if mask % 2 = 1 then 0 else 1 + mask_zeros fuel (mask / 2)

/-- Modelled from the spec: the second loop: the number of consecutive one
bits at the bottom of `mask`, over at most `fuel` bits. -/
def mask_ones : Nat → Nat → Nat
  | 0, _ => 0
  | fuel + 1, mask => if mask % 2 = 1 then 1 + mask_ones fuel (mask / 2) else 0

/-- Modelled from the spec: the shift of a channel mask (0 for no mask). -/
def mask_shift (mask : Nat) : Nat :=
  if mask = 0 then 0 else mask_zeros 32 mask

/-- Modelled from the spec: the precision loss of a channel mask, 8 minus its
width (8 for no mask). -/
def mask_loss (mask : Nat) : Nat :=
  if mask = 0 then 8 else 8 - mask_ones 32 (mask >>> mask_shift mask)

/-- Modelled from the spec: `SDL_AllocSurface(SDL_SWSURFACE, width, height,
depth, Rmask, Gmask, Bmask, Amask)`, "construct with (width, height, pixel
depth bits, R/G/B/A masks)": NULL when out of memory, else a surface of that
format with no colour key set. -/
def SDL_AllocSurface (host : Host) (width height depth Rmask Gmask Bmask Amask : Nat) :
    Option SDL_Surface :=
  match host.alloc_surface width height depth with
  | none => none
  | some st =>
    some
      { SRCCOLORKEY := false
        format :=
          { palette := st.palette
            BitsPerPixel := depth
            Rloss := mask_loss Rmask
            Gloss := mask_loss Gmask
            Bloss := mask_loss Bmask
            Rshift := mask_shift Rmask
            Gshift := mask_shift Gmask
            Bshift := mask_shift Bmask
            Rmask := Rmask
            Gmask := Gmask
            Bmask := Bmask
            Amask := Amask
            colorkey := 0 }
        w := width
        h := height
        pitch := st.pitch }

/-- Modelled from the spec: `SDL_MapRGB(format, r, g, b)`, "the destination
pixel format's encoding of that RGB triple": without a palette each component
goes to the bits of its channel mask and the alpha bits are set (full
coverage); with a palette it is SDL's palette lookup. The result is a
`Uint32`. -/
def SDL_MapRGB (host : Host) (format : SDL_PixelFormat) (r g b : Nat) : Nat :=
  match format.palette with
  | none =>
    (((r >>> format.Rloss) <<< format.Rshift) ||| ((g >>> format.Gloss) <<< format.Gshift) |||
      ((b >>> format.Bloss) <<< format.Bshift) ||| format.Amask) % 2 ^ 32
  | some pal => host.SDL_FindColor pal r g b

/-- Modelled from the spec: `SDL_SetColorKey(surface, SDL_SRCCOLORKEY, key)`,
the "settable single color-key value with an enable flag". -/
def SDL_SetColorKey (surface : SDL_Surface) (key : Nat) : SDL_Surface :=
  { surface with SRCCOLORKEY := true, format := { surface.format with colorkey := key } }

/-- The colour key of a surface when one is active, `none` otherwise. -/
def SDL_Surface.active_colorkey (surface : SDL_Surface) : Option Nat :=
  if surface.SRCCOLORKEY then some surface.format.colorkey else none

/-! ## C integer conversions used by the loader -/

/-- The cast `(Uint8)x`. -/
def toUint8 (x : Nat) : Nat := x % 256

/-- Conversion of a `Uint32` value to `int` (two's complement). -/
def toInt32 (x : Nat) : Int :=
  if x % 2 ^ 32 < 2 ^ 31 then ((x % 2 ^ 32 : Nat) : Int) else ((x % 2 ^ 32 : Nat) : Int) - 2 ^ 32

/-- Conversion of an `int` to `Uint32`. -/
def toUint32 (x : Int) : Nat := (x % 2 ^ 32).toNat

/-! ## `IMG_LoadPNG_RW` (lines 298-505) -/

/-- The scan of lines 385-392, `for(i = 0; i < num_trans; i++) ...`, started
with the loop counter `i`, the candidate `t`, and the entries `trans[i..]`
still ahead. Returns `(i, t)` as the loop leaves them: after a `break`, `i` is
the index it broke at; when the loop runs out, `i` is `num_trans`. -/
def tRNS_scan : List Nat → Nat → Int → Nat × Int
  | [], i, t => (i, t)
  | x :: rest, i, t =>
    if x = 0 then
      if t ≥ 0 then (i, t)
      else tRNS_scan rest (i + 1) (i : Int)
    else if x ≠ 255 then (i, t)
    else tRNS_scan rest (i + 1) t

/-- The transparency step, lines 378-402: from the pre-transform colour type,
the info struct and the current `ckey`, the new `ckey` and the transform
requests this step makes. -/
def tRNS_step (color_type : Nat) (info : png_info) (ckey : Int) : Int × List Transform :=
  if info.tRNS_valid then
    if color_type = PNG_COLOR_TYPE_PALETTE then
      let scan := tRNS_scan info.trans 0 (-1)
      let i := scan.1
      let t := scan.2
      if i = info.trans.length then
        (t, [])
      else
        (ckey, [Transform.expand])
    else
      (0, [])
  else
    (ckey, [])

/-- All the transform requests of lines 363-405, in call order. -/
def requested_transforms (color_type : Nat) (info : png_info) : List Transform :=
  [Transform.strip_16, Transform.packing]
    ++ (if color_type = PNG_COLOR_TYPE_GRAY then [Transform.expand] else [])
    ++ (tRNS_step color_type info (-1)).2
    ++ (if color_type = PNG_COLOR_TYPE_GRAY_ALPHA then [Transform.gray_to_rgb] else [])

/-- The channel masks of lines 413-427 as `(Rmask, Gmask, Bmask, Amask)`, from
the byte order, the post-transform colour type and `info_ptr->channels`. -/
def channel_masks (order : ByteOrder) (color_type channels : Nat) : Nat × Nat × Nat × Nat :=
  if color_type ≠ PNG_COLOR_TYPE_PALETTE then
    match order with
    | ByteOrder.SDL_LIL_ENDIAN =>
      (0x000000FF, 0x0000FF00, 0x00FF0000, if channels = 4 then 0xFF000000 else 0)
    | ByteOrder.SDL_BIG_ENDIAN =>
      let s := if channels = 4 then 0 else 8
      (0xFF000000 >>> s, 0x00FF0000 >>> s, 0x0000FF00 >>> s, 0x000000FF >>> s)
  else
    (0, 0, 0, 0)

/-- The colour-key step, lines 435-443. -/
def colorkey_step (host : Host) (color_type : Nat) (transv : png_color_16) (ckey : Int)
    (surface : SDL_Surface) : SDL_Surface :=
  if ckey ≠ -1 then
    let ckey : Int :=
      if color_type ≠ PNG_COLOR_TYPE_PALETTE then
        toInt32 (SDL_MapRGB host surface.format
          (toUint8 transv.red) (toUint8 transv.green) (toUint8 transv.blue))
      else ckey
    SDL_SetColorKey surface (toUint32 ckey)
  else
    surface

/-- One store of lines 473-475 / 480-482: the r, g, b of entry `i`. -/
def set_rgb (colors : Nat → SDL_Color) (i r g b : Nat) : Nat → SDL_Color :=
  fun j => if j = i then { colors j with r := r, g := g, b := b } else colors j

/-- The palette step, lines 467-485, on the surface's palette slot. -/
def load_palette (color_type : Nat) (info : png_info) (palette : SDL_Palette) : SDL_Palette :=
  if color_type = PNG_COLOR_TYPE_GRAY then
    { ncolors := 256
      colors := (List.range 256).foldl
        (fun colors i => set_rgb colors i (toUint8 i) (toUint8 i) (toUint8 i)) palette.colors }
  else if info.palette.length > 0 then
    { ncolors := info.palette.length
      colors := (List.range info.palette.length).foldl
        (fun colors i =>
          set_rgb colors i (info.palette.getD i default).red
            (info.palette.getD i default).green (info.palette.getD i default).blue)
        palette.colors }
  else
    palette

/-- The palette step applied to a surface: nothing when it has no palette. -/
def load_surface_palette (color_type : Nat) (info : png_info) (surface : SDL_Surface) :
    SDL_Surface :=
  match surface.format.palette with
  | none => surface
  | some palette =>
    { surface with format :=
        { surface.format with palette := some (load_palette color_type info palette) } }

/-- The locals of `IMG_LoadPNG_RW` that the `done:` block reads, and the
stream. `png_ptr` / `info_ptr` say whether the pointer is non-NULL,
`row_pointers` holds the row offsets into `surface->pixels`. -/
structure Locals where
  src : SDL_RWops
  error : Option String
  png_ptr : Bool
  info_ptr : Bool
  row_pointers : Option (List Nat)
  surface : Option SDL_Surface

/-- What a call of `IMG_LoadPNG_RW` leaves behind: the returned surface
(`none` = NULL), the stream, the message given to `IMG_SetError`, the offsets
of the `SDL_RWseek` calls the loader itself made, and which of the three
releases of the `done:` block ran. -/
structure LoadResult where
  surface : Option SDL_Surface
  src : Option SDL_RWops
  error : Option String
  seeks : List Nat
  destroyed_read_struct : Bool
  freed_row_pointers : Bool
  freed_surface : Bool

/-- Lines 327-485: everything up to the label `done:`; each early exit is a
`goto done` (or the `longjmp` into the `setjmp` branch of line 350). `transv`
is a pointer into the info struct, dereferenced at line 439, after the update:
it is read from the info struct as the update left it. -/
def IMG_LoadPNG_RW_body (host : Host) (png : Libpng) (src : SDL_RWops) : Locals :=
  let l : Locals :=
    { src := src, error := none, png_ptr := false, info_ptr := false,
      row_pointers := none, surface := none }
  if png.png_create_read_struct = false then
    { l with error := some "Couldn't allocate memory for PNG file or incompatible PNG dll" }
  else
    let l := { l with png_ptr := true }
    if png.png_create_info_struct = false then
      { l with error := some "Couldn't create image information for PNG file" }
    else
      let l := { l with info_ptr := true }
      let read := png.png_read_info src
      let l := { l with src := read.1.foldl png_read_data src }
      match read.2 with
      | none => { l with error := some "Error reading the PNG file." }
      | some info =>
        let color_type := info.color_type
        let ckey := (tRNS_step color_type info (-1)).1
        let requests := requested_transforms color_type info
        match png.png_read_update_info requests info with
        | none => { l with error := some "Error reading the PNG file." }
        | some info =>
          let bit_depth := info.bit_depth
          let color_type := info.color_type
          let transv := info.trans_values
          let masks := channel_masks host.SDL_BYTEORDER color_type info.channels
          match SDL_AllocSurface host info.width info.height (bit_depth * info.channels)
              masks.1 masks.2.1 masks.2.2.1 masks.2.2.2 with
          | none => { l with error := some "Out of memory" }
          | some surface =>
            let surface := colorkey_step host color_type transv ckey surface
            let l := { l with surface := some surface }
            if host.malloc_row_pointers = false then
              { l with error := some "Out of memory" }
            else
              let rows := (List.range info.height).map (fun row => row * surface.pitch)
              let l := { l with row_pointers := some rows }
              let image := png.png_read_image requests info l.src
              let l := { l with src := image.1.foldl png_read_data l.src }
              if image.2 = false then
                { l with error := some "Error reading the PNG file." }
              else
                { l with surface := some (load_surface_palette color_type info surface) }

/-- The block at `done:`, lines 487-504. -/
def IMG_LoadPNG_RW_done (start : Nat) (l : Locals) : LoadResult :=
  match l.error with
  | some error =>
    { surface := none
      src := some (SDL_RWseek l.src start)
      error := some error
      seeks := [start]
      destroyed_read_struct := l.png_ptr
      freed_row_pointers := l.row_pointers.isSome
      freed_surface := l.surface.isSome }
  | none =>
    { surface := l.surface
      src := some l.src
      error := none
      seeks := []
      destroyed_read_struct := l.png_ptr
      freed_row_pointers := l.row_pointers.isSome
      freed_surface := false }

/-- The function `IMG_LoadPNG_RW`; `none` is the NULL stream. -/
def IMG_LoadPNG_RW (host : Host) (png : Libpng) (src : Option SDL_RWops) : LoadResult :=
  match src with
  | none =>
    { surface := none, src := none, error := none, seeks := [],
      destroyed_read_struct := false, freed_row_pointers := false, freed_surface := false }
  | some src =>
    let start := SDL_RWtell src
    if host.IMG_Init_PNG = false then
      { surface := none, src := some src, error := none, seeks := [],
        destroyed_read_struct := false, freed_row_pointers := false, freed_surface := false }
    else
      IMG_LoadPNG_RW_done start (IMG_LoadPNG_RW_body host png src)

/-- The surface a successful load returns, given the header `info` read
first, the post-transform header `info2` and the freshly allocated surface:
the colour-key step, then the palette step. -/
def built_surface (host : Host) (info info2 : png_info) (sf0 : SDL_Surface) : SDL_Surface :=
  load_surface_palette info2.color_type info2
    (colorkey_step host info2.color_type info2.trans_values
      (tRNS_step info.color_type info (-1)).1 sf0)

/-! ## Notions the stated properties use -/

/-- The alpha list has exactly one entry equal to 0, at index `t`, and every
other entry equal to 255. -/
def ExactlyOneTransparent (trans : List Nat) (t : Nat) : Prop :=
  trans[t]? = some 0 ∧ ∀ j, j < trans.length → j ≠ t → trans[j]? = some 255

/-- The component that a packed pixel value carries in the bits of a channel
mask: mask it out and shift it down to bit 0. -/
def channel_of (mask value : Nat) : Nat :=
  (value &&& mask) >>> mask_shift mask

/-- A pixel's bytes, in memory order, read as one integer of the host's byte
order: the first byte is the least significant on a little-endian host and
the most significant on a big-endian one. -/
def host_order_value : ByteOrder → List Nat → Nat
  | ByteOrder.SDL_LIL_ENDIAN, bytes => bytes.foldr (fun byte acc => byte + 256 * acc) 0
  | ByteOrder.SDL_BIG_ENDIAN, bytes => bytes.foldl (fun acc byte => 256 * acc + byte) 0

/-- Modelled from the spec: what the 16-to-8 reduction (`png_set_strip_16`)
leaves of one 16-bit sample, "reduction of any depth-16 channel data to
depth-8 (halves storage, drops low byte)": the high byte. -/
def strip_16_sample (sample : Nat) : Nat := sample >>> 8

/-- An 8-bit mask: eight consecutive one bits starting at a byte boundary. -/
def IsByteMask (mask : Nat) : Prop :=
  ∃ k, mask = 0xFF <<< (8 * k)

/-! ## Sample inputs -/

/-- A stream of 43 bytes standing at position 3, where a PNG signature starts. -/
def sample_stream : SDL_RWops :=
  { data := [1, 2, 3, 0x89, 80, 78, 71, 13, 10, 26, 10, 0, 0, 0, 13, 73, 72, 68, 82, 0, 0, 0,
             2, 0, 0, 0, 2, 8, 3, 0, 0, 0, 1, 2, 3, 4, 5, 6, 7, 8, 9, 10, 11],
    pos := 3 }

/-- A host of the given byte order where everything succeeds: surfaces of
depth 8 or less get a 256-entry palette slot, filled with zeros. -/
def sample_host (order : ByteOrder) : Host :=
  { SDL_BYTEORDER := order
    IMG_Init_PNG := true
    alloc_surface := fun width _ depth =>
      some { pitch := width * ((depth + 7) / 8),
             palette := if depth ≤ 8 then
                 some { ncolors := 256, colors := fun _ => { r := 0, g := 0, b := 0, unused := 0 } }
               else none }
    malloc_row_pointers := true
    SDL_FindColor := fun _ _ _ _ => 0 }

/-- An engine that reads 33 bytes of header and delivers `info`, answers
`info2` to the update, and reads the image in one 7-byte call; `image_ok`
says whether that last read succeeds. -/
def sample_engine (info info2 : png_info) (image_ok : Bool) : Libpng :=
  { png_create_read_struct := true
    png_create_info_struct := true
    png_read_info := fun _ => ([8, 25], some info)
    png_read_update_info := fun _ _ => some info2
    png_read_image := fun _ _ _ => ([7], image_ok) }

/-- The header of a 2x2 Indexed image, 8 bits deep, with a 3-entry palette
and the given alpha list. -/
def indexed_info (trans : List Nat) : png_info :=
  { width := 2, height := 2, bit_depth := 8, color_type := PNG_COLOR_TYPE_PALETTE,
    interlace_type := 0, channels := 1,
    palette := [{ red := 10, green := 20, blue := 30 }, { red := 40, green := 50, blue := 60 },
                { red := 70, green := 80, blue := 90 }],
    tRNS_valid := true, trans := trans,
    trans_values := { index := 0, red := 0, green := 0, blue := 0, gray := 0 } }

/-- The header of a 2x2 RGB image of the given bit depth whose transparency
chunk names the colour `(r, g, b)`. -/
def rgb_info (bit_depth r g b : Nat) : png_info :=
  { width := 2, height := 2, bit_depth := bit_depth, color_type := PNG_COLOR_TYPE_RGB,
    interlace_type := 0, channels := 3, palette := [],
    tRNS_valid := true, trans := [],
    trans_values := { index := 0, red := r, green := g, blue := b, gray := 0 } }

/-- The header of a 2x2 Grayscale image, 8 bits deep, without transparency. -/
def gray_info : png_info :=
  { width := 2, height := 2, bit_depth := 8, color_type := PNG_COLOR_TYPE_GRAY,
    interlace_type := 0, channels := 1, palette := [],
    tRNS_valid := false, trans := [],
    trans_values := { index := 0, red := 0, green := 0, blue := 0, gray := 0 } }

/-- A loader that finds the library and every symbol. -/
def okLoader : Loader := { SDL_LoadObject := some 1, SDL_LoadFunction := fun _ => true }

/-! # Theorems -/

/-! ## The sniffer -/

/-- Seeking back to the recorded position after a read gives back the stream
exactly as it was. -/
theorem SDL_RWseek_read_restore (s : SDL_RWops) (size maxnum : Nat) :
    SDL_RWseek (SDL_RWread s size maxnum).2.2 (SDL_RWtell s) = s := by
  cases s
  simp [SDL_RWseek, SDL_RWread, SDL_RWtell]

/-- One call of `IMG_isPNG` hands back the stream it was given, position
included, whatever it answers. -/
theorem IMG_isPNG_stream (src : Option SDL_RWops) : (IMG_isPNG src).2 = src := by
  cases src with
  | none => rfl
  | some s =>
    cases s
    simp [IMG_isPNG, SDL_RWseek, SDL_RWread, SDL_RWtell]

/-- C5: `IMG_isPNG` is non-consuming and idempotent. For every stream (NULL or
not, any contents, any position, short or not) and every number `N` of calls
in a row, each of the `N` calls returns the value of the first one, the stream
after the last call is the stream before the first, and in particular its
position (`SDL_RWtell`) is what it was. -/
theorem IMG_isPNG_idempotent_nonconsuming (src : Option SDL_RWops) (N : Nat) :
    IMG_isPNG_repeat N src = (List.replicate N (IMG_isPNG src).1, src)
    ∧ (IMG_isPNG_repeat N src).2.map SDL_RWtell = src.map SDL_RWtell := by
  have h : IMG_isPNG_repeat N src = (List.replicate N (IMG_isPNG src).1, src) := by
    induction N with
    | zero => rfl
    | succ n ih =>
      have h2 := IMG_isPNG_stream src
      simp only [IMG_isPNG_repeat]
      rw [show IMG_isPNG src = ((IMG_isPNG src).1, src) from Prod.ext rfl h2]
      simp only [ih]
      rfl
  exact ⟨h, by rw [h]⟩

/-- C6: `IMG_isPNG` returns 1 exactly when the stream is non-NULL, at least 4
bytes remain at the current position, and the next 4 bytes are 0x89, 'P', 'N',
'G'. It always returns 0 or 1; the NULL stream gives 0 and touches nothing; a
stream with fewer than 4 bytes left gives 0. -/
theorem IMG_isPNG_eq_one_iff (src : Option SDL_RWops) :
    ((IMG_isPNG src).1 = 1 ↔
      ∃ s, src = some s ∧ 4 ≤ s.data.length - s.pos ∧
        (s.data.drop s.pos).take 4 = [0x89, 80, 78, 71])
    ∧ ((IMG_isPNG src).1 = 0 ∨ (IMG_isPNG src).1 = 1)
    ∧ (src = none → IMG_isPNG src = (0, none))
    ∧ (∀ s, src = some s → s.data.length - s.pos < 4 → (IMG_isPNG src).1 = 0) := by
  cases src with
  | none => simp [IMG_isPNG]
  | some s =>
    obtain ⟨data, pos⟩ := s
    have hl : (data.drop pos).length = data.length - pos := List.length_drop pos data
    simp only [IMG_isPNG, SDL_RWread, SDL_RWtell, Option.some.injEq, exists_eq_left', ← hl,
      Nat.one_mul, Nat.div_one, reduceCtorEq, false_implies, forall_eq', true_and]
    generalize data.drop pos = l
    rcases l with _ | ⟨a, _ | ⟨b, _ | ⟨c, _ | ⟨d, l⟩⟩⟩⟩ <;> simp
    by_cases h : a = 137 ∧ b = 80 ∧ c = 78 ∧ d = 71
    · simp [h]
    · simp [h]
      tauto

/-! ## The engine binding -/

/-- An `int` value that fits is stored as it is. -/
theorem int_wrap_of_range (x : Int) (h1 : -2 ^ 31 ≤ x) (h2 : x < 2 ^ 31) : int_wrap x = x := by
  unfold int_wrap
  omega

/-- Wrapping absorbs an earlier wrap. -/
theorem int_wrap_add_wrap (x y : Int) : int_wrap (int_wrap x + y) = int_wrap (x + y) := by
  unfold int_wrap
  omega

/-- Wrapping twice is wrapping once. -/
theorem int_wrap_idem (x : Int) : int_wrap (int_wrap x) = int_wrap x := by
  unfold int_wrap
  omega

/-- A run of `n` static init calls, from any `int` count: each call returns 0
and the count is the sum as an `int` holds it. -/
theorem init_times_wrap (n : Nat) (b : LibpngBinding) (hb : int_wrap b.loaded = b.loaded) :
    (init_times n b).1 = List.replicate n 0
    ∧ (init_times n b).2.loaded = int_wrap (b.loaded + n)
    ∧ (init_times n b).2.loads = b.loads
    ∧ (init_times n b).2.unloads = b.unloads := by
  induction n generalizing b with
  | zero => simp [init_times, hb]
  | succ n ih =>
    have hl : (IMG_InitPNG b).2.loaded = int_wrap (b.loaded + 1) := by
      simp only [IMG_InitPNG]; split <;> rfl
    obtain ⟨h1, h2, h3, h4⟩ := ih (IMG_InitPNG b).2 (by rw [hl]; exact int_wrap_idem _)
    simp only [init_times, h1, h2, h3, h4]
    refine ⟨by simp [IMG_InitPNG, List.replicate_succ], ?_, ?_, ?_⟩
    · rw [hl, int_wrap_add_wrap]
      congr 1
      push_cast
      ring
    · simp only [IMG_InitPNG]; split <;> rfl
    · simp only [IMG_InitPNG]; split <;> rfl

/-- A run of `n` static init calls that stays within `int` adds `n` to the
count. -/
theorem init_times_spec (n : Nat) (b : LibpngBinding) (h0 : 0 ≤ b.loaded)
    (hn : b.loaded + n < 2 ^ 31) :
    (init_times n b).1 = List.replicate n 0
    ∧ (init_times n b).2.loaded = b.loaded + n
    ∧ (init_times n b).2.loads = b.loads
    ∧ (init_times n b).2.unloads = b.unloads := by
  obtain ⟨h1, h2, h3, h4⟩ := init_times_wrap n b (int_wrap_of_range _ (by omega) (by omega))
  exact ⟨h1, by rw [h2, int_wrap_of_range _ (by omega) hn], h3, h4⟩

/-- With the binding already held, `n` dynamic init calls that stay within
`int` return 0 each time, add `n` to the count and touch no library object. -/
theorem init_dynamic_times_of_pos (ld : Loader) (n : Nat) (b : LibpngBinding)
    (h : 0 < b.loaded) (hn : b.loaded + n < 2 ^ 31) :
    (init_dynamic_times ld n b).1 = List.replicate n 0
    ∧ (init_dynamic_times ld n b).2.loaded = b.loaded + n
    ∧ (init_dynamic_times ld n b).2.loads = b.loads
    ∧ (init_dynamic_times ld n b).2.unloads = b.unloads := by
  induction n generalizing b with
  | zero => simp [init_dynamic_times]
  | succ n ih =>
    have hw : int_wrap (b.loaded + 1) = b.loaded + 1 :=
      int_wrap_of_range _ (by omega) (by push_cast at hn; omega)
    have hb : IMG_InitPNG_dynamic ld b = (0, { b with loaded := b.loaded + 1 }) := by
      have : b.loaded ≠ 0 := by omega
      simp [IMG_InitPNG_dynamic, this, hw]
    obtain ⟨h1, h2, h3, h4⟩ := ih { b with loaded := b.loaded + 1 } (by simp; omega)
      (by push_cast at hn; simp; omega)
    simp only [init_dynamic_times, hb, h1, h2, h3, h4]
    refine ⟨by simp [List.replicate_succ], ?_⟩
    simp only [and_self, and_true]
    push_cast; ring

/-- From the unloaded state, `n + 1` dynamic init calls that all return 0 and
stay within `int` leave the count at `n + 1` with one object loaded and none
unloaded. -/
theorem init_dynamic_times_unloaded (ld : Loader) (n : Nat) (hn : n + 1 < 2 ^ 31)
    (h : (init_dynamic_times ld (n + 1) LibpngBinding.unloaded).1 = List.replicate (n + 1) 0) :
    (init_dynamic_times ld (n + 1) LibpngBinding.unloaded).2.loaded = n + 1
    ∧ (init_dynamic_times ld (n + 1) LibpngBinding.unloaded).2.loads = 1
    ∧ (init_dynamic_times ld (n + 1) LibpngBinding.unloaded).2.unloads = 0 := by
  simp only [init_dynamic_times] at h ⊢
  cases hobj : ld.SDL_LoadObject with
  | none =>
    simp [IMG_InitPNG_dynamic, LibpngBinding.unloaded, hobj, List.replicate_succ] at h
  | some hd =>
    cases hfun : load_functions ld png_symbols with
    | false =>
      simp [IMG_InitPNG_dynamic, LibpngBinding.unloaded, hobj, hfun, List.replicate_succ] at h
    | true =>
      have hw : int_wrap 1 = 1 := by decide
      have hb : IMG_InitPNG_dynamic ld LibpngBinding.unloaded =
          (0, { loaded := 1, handle := some hd, bound := true, loads := 1, unloads := 0 }) := by
        simp [IMG_InitPNG_dynamic, LibpngBinding.unloaded, hobj, hfun, hw]
      obtain ⟨-, h2, h3, h4⟩ := init_dynamic_times_of_pos ld n
        { loaded := 1, handle := some hd, bound := true, loads := 1, unloads := 0 } (by simp)
        (by simp; omega)
      simp only [hb, h2, h3, h4]
      refine ⟨?_, trivial, trivial⟩
      ring

/-- Fewer dynamic quit calls than the count only decrement the count. -/
theorem quit_dynamic_times_lt (j : Nat) (b : LibpngBinding) (h : (j : Int) < b.loaded)
    (hmax : b.loaded < 2 ^ 31) :
    quit_dynamic_times j b = { b with loaded := b.loaded - j } := by
  induction j generalizing b with
  | zero => simp [quit_dynamic_times]
  | succ j ih =>
    have h0 : b.loaded ≠ 0 := by omega
    have h1 : b.loaded ≠ 1 := by push_cast at h; omega
    have hw : int_wrap (b.loaded - 1) = b.loaded - 1 :=
      int_wrap_of_range _ (by omega) (by omega)
    have hq : IMG_QuitPNG_dynamic b = { b with loaded := b.loaded - 1 } := by
      simp [IMG_QuitPNG_dynamic, h0, h1, hw]
    simp only [quit_dynamic_times, hq]
    rw [ih _ (by push_cast at h; simp; omega) (by simp; omega)]
    simp
    ring

/-- At most as many static quit calls as the count only decrement the count. -/
theorem quit_times_le (j : Nat) (b : LibpngBinding) (h : (j : Int) ≤ b.loaded)
    (hmax : b.loaded < 2 ^ 31) :
    quit_times j b = { b with loaded := b.loaded - j } := by
  induction j generalizing b with
  | zero => simp [quit_times]
  | succ j ih =>
    have h0 : b.loaded ≠ 0 := by push_cast at h; omega
    have hw : int_wrap (b.loaded - 1) = b.loaded - 1 :=
      int_wrap_of_range _ (by push_cast at h; omega) (by omega)
    have hq : IMG_QuitPNG b = { b with loaded := b.loaded - 1 } := by
      simp [IMG_QuitPNG, h0, hw]
    simp only [quit_times, hq]
    rw [ih _ (by push_cast at h; simp; omega) (by simp; omega)]
    simp
    ring

/-- With the count at 0 every dynamic quit call is a no-op. -/
theorem quit_dynamic_times_zero (k : Nat) (b : LibpngBinding) (h : b.loaded = 0) :
    quit_dynamic_times k b = b := by
  induction k with
  | zero => rfl
  | succ k ih => simp [quit_dynamic_times, IMG_QuitPNG_dynamic, h, ih]

/-- With the count at 0 every static quit call is a no-op. -/
theorem quit_times_zero (k : Nat) (b : LibpngBinding) (h : b.loaded = 0) :
    quit_times k b = b := by
  induction k with
  | zero => rfl
  | succ k ih => simp [quit_times, IMG_QuitPNG, h, ih]

/-- Runs of dynamic quit calls compose. -/
theorem quit_dynamic_times_add (j k : Nat) (b : LibpngBinding) :
    quit_dynamic_times (j + k) b = quit_dynamic_times k (quit_dynamic_times j b) := by
  induction j generalizing b with
  | zero => simp [quit_dynamic_times]
  | succ j ih => rw [Nat.succ_add]; simp [quit_dynamic_times, ih]

/-- Runs of static quit calls compose. -/
theorem quit_times_add (j k : Nat) (b : LibpngBinding) :
    quit_times (j + k) b = quit_times k (quit_times j b) := by
  induction j generalizing b with
  | zero => simp [quit_times]
  | succ j ih => rw [Nat.succ_add]; simp [quit_times, ih]

/-- The binding after `j` dynamic quit calls, from a count of `m`. -/
theorem quit_dynamic_times_all (m : Nat) (b : LibpngBinding) (hb : b.loaded = m)
    (hmax : m < 2 ^ 31) (j : Nat) :
    (j < m → quit_dynamic_times j b = { b with loaded := m - j })
    ∧ (m ≤ j → 1 ≤ m →
        quit_dynamic_times j b = { b with loaded := 0, unloads := b.unloads + 1 }) := by
  have hmax2 : b.loaded < 2 ^ 31 := by rw [hb]; exact_mod_cast hmax
  constructor
  · intro hj
    rw [quit_dynamic_times_lt j b (by rw [hb]; exact_mod_cast hj) hmax2, hb]
  · intro hj hm
    obtain ⟨k, rfl⟩ : ∃ k, j = (m - 1) + (1 + k) := ⟨j - m, by omega⟩
    rw [quit_dynamic_times_add, quit_dynamic_times_add,
      quit_dynamic_times_lt (m - 1) b (by rw [hb]; omega) hmax2]
    have h1 : b.loaded - ((m - 1 : Nat) : Int) = 1 := by rw [hb]; omega
    rw [h1]
    have h2 : quit_dynamic_times 1 { b with loaded := 1 } =
        { b with loaded := 0, unloads := b.unloads + 1 } := by
      simp only [quit_dynamic_times, IMG_QuitPNG_dynamic]
      simp
      decide
    rw [h2, quit_dynamic_times_zero _ _ rfl]

/-- The binding after `j` static quit calls, from a count of `m`. -/
theorem quit_times_all (m : Nat) (b : LibpngBinding) (hb : b.loaded = m)
    (hmax : m < 2 ^ 31) (j : Nat) :
    (j ≤ m → quit_times j b = { b with loaded := m - j })
    ∧ (m ≤ j → quit_times j b = { b with loaded := 0 }) := by
  have hmax2 : b.loaded < 2 ^ 31 := by rw [hb]; exact_mod_cast hmax
  constructor
  · intro hj
    rw [quit_times_le j b (by rw [hb]; exact_mod_cast hj) hmax2, hb]
  · intro hj
    obtain ⟨k, rfl⟩ : ∃ k, j = m + k := ⟨j - m, by omega⟩
    rw [quit_times_add, quit_times_le m b (by rw [hb]) hmax2, hb,
      quit_times_zero _ _ (by simp)]
    simp

/-- C8, as amended: the engine binding is reference-counted within the range
of its `int` counter. From the unloaded state, after `N` successful
`IMG_InitPNG` calls (each returned 0), `1 <= N <= INT_MAX`: `N - 1` calls of
`IMG_QuitPNG` leave the count at 1; the `N`-th brings it to 0; every further
call changes nothing; the count is never negative. In the dynamic build the
library object stays loaded (one load, no unload) after any `j < N` quit calls
and `SDL_UnloadObject` has run exactly once after the `N`-th. The first
conjunct is the static build, the second the dynamic one. -/
theorem IMG_InitPNG_QuitPNG_refcount (ld : Loader) (N : Nat) (hN : 1 ≤ N) (hmax : N < 2 ^ 31)
    (hok : (init_dynamic_times ld N LibpngBinding.unloaded).1 = List.replicate N 0) :
    ((init_times N LibpngBinding.unloaded).1 = List.replicate N 0
      ∧ (quit_times (N - 1) (init_times N LibpngBinding.unloaded).2).loaded = 1
      ∧ (quit_times N (init_times N LibpngBinding.unloaded).2).loaded = 0
      ∧ (∀ k, quit_times (N + k) (init_times N LibpngBinding.unloaded).2 =
              quit_times N (init_times N LibpngBinding.unloaded).2)
      ∧ (∀ j, 0 ≤ (quit_times j (init_times N LibpngBinding.unloaded).2).loaded))
    ∧ ((quit_dynamic_times (N - 1) (init_dynamic_times ld N LibpngBinding.unloaded).2).loaded = 1
      ∧ (∀ j, j < N →
          (quit_dynamic_times j (init_dynamic_times ld N LibpngBinding.unloaded).2).loads = 1 ∧
          (quit_dynamic_times j (init_dynamic_times ld N LibpngBinding.unloaded).2).unloads = 0)
      ∧ (quit_dynamic_times N (init_dynamic_times ld N LibpngBinding.unloaded).2).loaded = 0
      ∧ (quit_dynamic_times N (init_dynamic_times ld N LibpngBinding.unloaded).2).loads = 1
      ∧ (quit_dynamic_times N (init_dynamic_times ld N LibpngBinding.unloaded).2).unloads = 1
      ∧ (∀ k, quit_dynamic_times (N + k) (init_dynamic_times ld N LibpngBinding.unloaded).2 =
              quit_dynamic_times N (init_dynamic_times ld N LibpngBinding.unloaded).2)
      ∧ (∀ j, 0 ≤
          (quit_dynamic_times j (init_dynamic_times ld N LibpngBinding.unloaded).2).loaded)) := by
  obtain ⟨n, rfl⟩ : ∃ n, N = n + 1 := ⟨N - 1, by omega⟩
  constructor
  · obtain ⟨h1, h2, -, -⟩ := init_times_spec (n + 1) LibpngBinding.unloaded (by decide)
      (by simp only [LibpngBinding.unloaded]; exact_mod_cast (by omega : 0 + (n + 1) < 2 ^ 31))
    have hb : (init_times (n + 1) LibpngBinding.unloaded).2.loaded = ((n + 1 : Nat) : Int) := by
      rw [h2]; simp [LibpngBinding.unloaded]
    generalize (init_times (n + 1) LibpngBinding.unloaded).2 = b at hb
    have hall := quit_times_all (n + 1) b hb hmax
    refine ⟨h1, ?_, ?_, ?_, ?_⟩
    · rw [Nat.add_sub_cancel, (hall n).1 (by omega)]; simp
    · rw [(hall (n + 1)).2 (by omega)]
    · intro k
      rw [(hall (n + 1 + k)).2 (by omega), (hall (n + 1)).2 (by omega)]
    · intro j
      rcases Nat.lt_or_ge j (n + 1) with hj | hj
      · rw [(hall j).1 (by omega)]; simp; omega
      · rw [(hall j).2 hj]
  · obtain ⟨h2, h3, h4⟩ := init_dynamic_times_unloaded ld n hmax hok
    have hb : (init_dynamic_times ld (n + 1) LibpngBinding.unloaded).2.loaded
        = ((n + 1 : Nat) : Int) := by rw [h2]; simp
    generalize (init_dynamic_times ld (n + 1) LibpngBinding.unloaded).2 = b at hb h3 h4
    have hall := quit_dynamic_times_all (n + 1) b hb hmax
    refine ⟨?_, ?_, ?_, ?_, ?_, ?_, ?_⟩
    · rw [Nat.add_sub_cancel, (hall n).1 (by omega)]; simp
    · intro j hj
      rw [(hall j).1 hj]; exact ⟨h3, h4⟩
    · rw [(hall (n + 1)).2 (by omega) (by omega)]
    · rw [(hall (n + 1)).2 (by omega) (by omega)]; exact h3
    · rw [(hall (n + 1)).2 (by omega) (by omega)]; simp [h4]
    · intro k
      rw [(hall (n + 1 + k)).2 (by omega) (by omega), (hall (n + 1)).2 (by omega) (by omega)]
    · intro j
      rcases Nat.lt_or_ge j (n + 1) with hj | hj
      · rw [(hall j).1 hj]; simp; omega
      · rw [(hall j).2 hj (by omega)]

/-- Witness for the amended C8: three nested init calls against a loader that
finds the library and every symbol. -/
theorem IMG_InitPNG_QuitPNG_refcount_witness :
    1 ≤ 3
    ∧ 3 < 2 ^ 31
    ∧ (init_dynamic_times okLoader 3 LibpngBinding.unloaded).1 = List.replicate 3 0
    ∧ (quit_times 2 (init_times 3 LibpngBinding.unloaded).2).loaded = 1
    ∧ (quit_dynamic_times 2 (init_dynamic_times okLoader 3 LibpngBinding.unloaded).2).loaded = 1
    ∧ (quit_dynamic_times 3 (init_dynamic_times okLoader 3 LibpngBinding.unloaded).2).unloads
        = 1 :=
  ⟨by decide, by decide, by decide,
    (IMG_InitPNG_QuitPNG_refcount okLoader 3 (by decide) (by decide) (by decide)).1.2.1,
    (IMG_InitPNG_QuitPNG_refcount okLoader 3 (by decide) (by decide) (by decide)).2.1,
    (IMG_InitPNG_QuitPNG_refcount okLoader 3 (by decide) (by decide) (by decide)).2.2.2.2.2.1⟩

/-- C8, counterexample: in the static build every `IMG_InitPNG` call returns 0,
and from the unloaded state 2^31 of them leave the `int` count at
-2147483648, a negative count. After 2^32 + 1 of them the count has come round
to 1, so the first of the following 2^32 `IMG_QuitPNG` calls releases and the
count after them is 0, not 1. -/
theorem refcount_int_overflow :
    (init_times 2147483648 LibpngBinding.unloaded).1 = List.replicate 2147483648 0
    ∧ (init_times 2147483648 LibpngBinding.unloaded).2.loaded = -2147483648
    ∧ (init_times 4294967297 LibpngBinding.unloaded).1 = List.replicate 4294967297 0
    ∧ (quit_times (4294967297 - 1) (init_times 4294967297 LibpngBinding.unloaded).2).loaded
        = 0 := by
  have hu : int_wrap LibpngBinding.unloaded.loaded = LibpngBinding.unloaded.loaded := by decide
  obtain ⟨a1, a2, -, -⟩ := init_times_wrap 2147483648 LibpngBinding.unloaded hu
  obtain ⟨b1, b2, -, -⟩ := init_times_wrap 4294967297 LibpngBinding.unloaded hu
  refine ⟨a1, ?_, b1, ?_⟩
  · rw [a2]; decide
  · have hb : (init_times 4294967297 LibpngBinding.unloaded).2.loaded = ((1 : Nat) : Int) := by
      rw [b2]; decide
    generalize (init_times 4294967297 LibpngBinding.unloaded).2 = b at hb
    rw [((quit_times_all 1 b hb (by decide)) (4294967297 - 1)).2 (by decide)]

/-! ## The transparency scan -/

/-- Over entries that are all 255 the scan runs to the end and keeps `t`. -/
theorem tRNS_scan_all_255 (xs : List Nat) (i : Nat) (t : Int) (h : ∀ x ∈ xs, x = 255) :
    tRNS_scan xs i t = (i + xs.length, t) := by
  induction xs generalizing i with
  | nil => simp [tRNS_scan]
  | cons x rest ih =>
    have hx : x = 255 := h x (by simp)
    subst hx
    simp only [tRNS_scan]
    rw [ih (i + 1) (fun y hy => h y (by simp [hy]))]
    simp; omega

/-- With no candidate yet and exactly one 0, at offset `k`, the scan runs to the
end and leaves `t` at that entry's index. -/
theorem tRNS_scan_exactly_one (xs : List Nat) (i k : Nat) (t : Int) (ht : t < 0)
    (h : ExactlyOneTransparent xs k) :
    tRNS_scan xs i t = (i + xs.length, ((i + k : Nat) : Int)) := by
  induction xs generalizing i k with
  | nil => simp [ExactlyOneTransparent] at h
  | cons x rest ih =>
    obtain ⟨h0, hr⟩ := h
    cases k with
    | zero =>
      simp at h0
      subst h0
      have hrest : ∀ y ∈ rest, y = 255 := by
        intro y hy
        obtain ⟨n, hn, rfl⟩ := List.getElem_of_mem hy
        have := hr (n + 1) (by simp; omega) (by omega)
        simpa [hn] using this
      have hneg : ¬ (t ≥ 0) := by omega
      simp only [tRNS_scan, if_true, hneg, if_false]
      rw [tRNS_scan_all_255 rest (i + 1) _ hrest]
      simp; omega
    | succ k =>
      have hx : x = 255 := by
        have := hr 0 (by simp) (by omega)
        simpa using this
      subst hx
      simp only [tRNS_scan]
      have hk : ExactlyOneTransparent rest k := by
        refine ⟨by simpa using h0, ?_⟩
        intro j hj hjk
        have := hr (j + 1) (by simp; omega) (by omega)
        simpa using this
      rw [ih (i + 1) k hk]
      simp; omega

/-- The loop counter never passes `num_trans`. -/
theorem tRNS_scan_le (xs : List Nat) (i : Nat) (t : Int) :
    (tRNS_scan xs i t).1 ≤ i + xs.length := by
  induction xs generalizing i t with
  | nil => simp [tRNS_scan]
  | cons x rest ih =>
    simp only [tRNS_scan]
    split
    · split
      · simp
      · have := ih (i + 1) (i : Int); simp; omega
    · split
      · simp
      · have := ih (i + 1) t; simp; omega

/-- Once a candidate is held the scan never changes it. -/
theorem tRNS_scan_snd_of_nonneg (xs : List Nat) (i : Nat) (t : Int) (ht : 0 ≤ t) :
    (tRNS_scan xs i t).2 = t := by
  induction xs generalizing i with
  | nil => simp [tRNS_scan]
  | cons x rest ih =>
    simp only [tRNS_scan]
    split
    · simp [ht]
    · split
      · rfl
      · exact ih (i + 1)

/-- If the scan runs to the end, every entry is 0 or 255 and at most one is 0
(none when a candidate was already held). -/
theorem tRNS_scan_complete (xs : List Nat) (i : Nat) (t : Int)
    (h : (tRNS_scan xs i t).1 = i + xs.length) :
    (∀ x ∈ xs, x = 0 ∨ x = 255) ∧ xs.count 0 + (if 0 ≤ t then 1 else 0) ≤ 1 := by
  induction xs generalizing i t with
  | nil => simp; split <;> simp
  | cons x rest ih =>
    simp only [tRNS_scan] at h
    by_cases hx : x = 0
    · subst hx
      by_cases ht : t ≥ 0
      · simp [ht] at h
      · simp only [if_true, ht, if_false] at h
        have := ih (i + 1) (i : Int) (by rw [h]; simp; omega)
        simp at this
        have ht2 : ¬ (0 ≤ t) := ht
        simp [ht2]
        exact ⟨fun a ha => this.1 a ha, this.2⟩
    · by_cases hx2 : x = 255
      · subst hx2
        simp at h
        have := ih (i + 1) t (by rw [h]; omega)
        simp
        exact ⟨fun a ha => this.1 a ha, this.2⟩
      · simp [hx, hx2] at h

/-- A list of 0s and 255s with at most one 0 is all 255s or has exactly one 0. -/
theorem zero_or_one_transparent (xs : List Nat) (h : ∀ x ∈ xs, x = 0 ∨ x = 255)
    (hc : xs.count 0 ≤ 1) :
    (∀ x ∈ xs, x = 255) ∨ ∃ k, ExactlyOneTransparent xs k := by
  induction xs with
  | nil => left; simp
  | cons x rest ih =>
    rcases h x (by simp) with hx | hx
    · subst hx
      right
      refine ⟨0, by simp, ?_⟩
      intro j hj hj0
      obtain ⟨n, rfl⟩ : ∃ n, j = n + 1 := ⟨j - 1, by omega⟩
      simp at hj hc ⊢
      have hn : rest[n] ∈ rest := List.getElem_mem _
      rcases h rest[n] (by simp [hn]) with h1 | h1
      · exact absurd hn (by rw [h1]; exact List.count_eq_zero.mp hc)
      · simp [List.getElem?_eq_getElem hj, h1]
    · subst hx
      have hc2 : rest.count 0 ≤ 1 := by simpa using hc
      rcases ih (fun y hy => h y (by simp [hy])) hc2 with h1 | ⟨k, hk0, hk⟩
      · left
        intro y hy
        simp at hy
        rcases hy with rfl | hy
        · rfl
        · exact h1 y hy
      · right
        refine ⟨k + 1, by simpa using hk0, ?_⟩
        intro j hj hjk
        cases j with
        | zero => simp
        | succ n =>
          simp at hj ⊢
          exact hk n hj (by omega)

/-- Two zeros, or a value in [1,254], make the scan break before the end. -/
theorem tRNS_scan_break (xs : List Nat) (i : Nat)
    (h : 2 ≤ xs.count 0 ∨ ∃ x ∈ xs, 1 ≤ x ∧ x ≤ 254) :
    (tRNS_scan xs i (-1)).1 ≠ i + xs.length := by
  intro hc
  obtain ⟨h1, h2⟩ := tRNS_scan_complete xs i (-1) hc
  rcases h with h | ⟨x, hx, h3, h4⟩
  · simp at h2; omega
  · rcases h1 x hx with h5 | h5 <;> omega

/-! ## The loader's control flow -/

/-- The read callback leaves the stream's content alone. -/
theorem png_read_data_data (src : SDL_RWops) (size : Nat) :
    (png_read_data src size).data = src.data := rfl

/-- Any number of engine reads leaves the stream's content alone. -/
theorem png_read_data_foldl_data (reads : List Nat) (src : SDL_RWops) :
    (reads.foldl png_read_data src).data = src.data := by
  induction reads generalizing src with
  | nil => rfl
  | cons n rest ih => simp [List.foldl, ih, png_read_data_data]

/-- Seeking to the recorded start after any engine reads gives back the stream. -/
theorem SDL_RWseek_foldl_restore (reads : List Nat) (src : SDL_RWops) :
    SDL_RWseek (reads.foldl png_read_data src) (SDL_RWtell src) = src := by
  have h := png_read_data_foldl_data reads src
  cases src
  simp only [SDL_RWseek, SDL_RWtell] at *
  simp [h]

/-- A returned surface comes from a run in which every step succeeded, and is
the allocated surface after the colour-key and palette steps. -/
theorem IMG_LoadPNG_RW_surface (host : Host) (png : Libpng) (src : SDL_RWops) (sf : SDL_Surface)
    (h : (IMG_LoadPNG_RW host png (some src)).surface = some sf) :
    ∃ info info2 sf0,
      (png.png_read_info src).2 = some info
      ∧ png.png_read_update_info (requested_transforms info.color_type info) info = some info2
      ∧ SDL_AllocSurface host info2.width info2.height (info2.bit_depth * info2.channels)
          (channel_masks host.SDL_BYTEORDER info2.color_type info2.channels).1
          (channel_masks host.SDL_BYTEORDER info2.color_type info2.channels).2.1
          (channel_masks host.SDL_BYTEORDER info2.color_type info2.channels).2.2.1
          (channel_masks host.SDL_BYTEORDER info2.color_type info2.channels).2.2.2 = some sf0
      ∧ sf = built_surface host info info2 sf0 := by
  cases hinit : host.IMG_Init_PNG with
  | false => simp [IMG_LoadPNG_RW, hinit] at h
  | true =>
  cases h1 : png.png_create_read_struct with
  | false => simp [IMG_LoadPNG_RW, IMG_LoadPNG_RW_body, IMG_LoadPNG_RW_done, hinit, h1] at h
  | true =>
  cases h2 : png.png_create_info_struct with
  | false => simp [IMG_LoadPNG_RW, IMG_LoadPNG_RW_body, IMG_LoadPNG_RW_done, hinit, h1, h2] at h
  | true =>
  cases h3 : (png.png_read_info src).2 with
  | none => simp [IMG_LoadPNG_RW, IMG_LoadPNG_RW_body, IMG_LoadPNG_RW_done, hinit, h1, h2, h3] at h
  | some info =>
  cases h4 : png.png_read_update_info (requested_transforms info.color_type info) info with
  | none =>
    simp [IMG_LoadPNG_RW, IMG_LoadPNG_RW_body, IMG_LoadPNG_RW_done, hinit, h1, h2, h3, h4] at h
  | some info2 =>
  cases h5 : SDL_AllocSurface host info2.width info2.height (info2.bit_depth * info2.channels)
      (channel_masks host.SDL_BYTEORDER info2.color_type info2.channels).1
      (channel_masks host.SDL_BYTEORDER info2.color_type info2.channels).2.1
      (channel_masks host.SDL_BYTEORDER info2.color_type info2.channels).2.2.1
      (channel_masks host.SDL_BYTEORDER info2.color_type info2.channels).2.2.2 with
  | none =>
    simp [IMG_LoadPNG_RW, IMG_LoadPNG_RW_body, IMG_LoadPNG_RW_done, hinit, h1, h2, h3, h4, h5] at h
  | some sf0 =>
  cases h6 : host.malloc_row_pointers with
  | false =>
    simp [IMG_LoadPNG_RW, IMG_LoadPNG_RW_body, IMG_LoadPNG_RW_done, hinit, h1, h2, h3, h4, h5,
      h6] at h
  | true =>
  cases h7 : (png.png_read_image (requested_transforms info.color_type info) info2
      (List.foldl png_read_data src (png.png_read_info src).1)).2 with
  | false =>
    simp [IMG_LoadPNG_RW, IMG_LoadPNG_RW_body, IMG_LoadPNG_RW_done, hinit, h1, h2, h3, h4, h5,
      h6, h7] at h
  | true =>
    simp [IMG_LoadPNG_RW, IMG_LoadPNG_RW_body, IMG_LoadPNG_RW_done, hinit, h1, h2, h3, h4, h5,
      h6, h7] at h
    exact ⟨info, info2, sf0, rfl, h4, h5, h.symm⟩

/-- The same after two runs of engine reads. -/
theorem SDL_RWseek_foldl_restore2 (r1 r2 : List Nat) (src : SDL_RWops) :
    SDL_RWseek (r2.foldl png_read_data (r1.foldl png_read_data src)) (SDL_RWtell src) = src := by
  rw [← List.foldl_append]
  exact SDL_RWseek_foldl_restore _ src

/-- C7: error paths of `IMG_LoadPNG_RW`, for a non-NULL stream once
`IMG_Init` has succeeded. Whenever an error is recorded the function returns
NULL, the stream is back exactly where the call found it (one seek, to the
recorded start), and a surface that had been allocated has been freed. Without
an error a surface is returned, the loader made no seek, and the stream stands
where the engine's reads left it. Each failure cause records its error:
read-struct allocation, info-struct allocation, an engine error in
`png_read_info`, in `png_read_update_info` or in `png_read_image`, surface
allocation, row-table allocation. -/
theorem IMG_LoadPNG_RW_error_restores_stream (host : Host) (png : Libpng) (src : SDL_RWops)
    (hinit : host.IMG_Init_PNG = true) :
    ((IMG_LoadPNG_RW host png (some src)).error ≠ none →
        (IMG_LoadPNG_RW host png (some src)).surface = none
        ∧ (IMG_LoadPNG_RW host png (some src)).src = some src
        ∧ (IMG_LoadPNG_RW host png (some src)).src.map SDL_RWtell = some (SDL_RWtell src)
        ∧ (IMG_LoadPNG_RW host png (some src)).seeks = [SDL_RWtell src]
        ∧ (IMG_LoadPNG_RW host png (some src)).freed_surface
            = (IMG_LoadPNG_RW_body host png src).surface.isSome)
    ∧ ((IMG_LoadPNG_RW host png (some src)).error = none →
        (IMG_LoadPNG_RW host png (some src)).surface.isSome = true
        ∧ (IMG_LoadPNG_RW host png (some src)).seeks = []
        ∧ (IMG_LoadPNG_RW host png (some src)).freed_surface = false
        ∧ ∃ info info2,
            (png.png_read_info src).2 = some info
            ∧ png.png_read_update_info (requested_transforms info.color_type info) info
                = some info2
            ∧ (IMG_LoadPNG_RW host png (some src)).src =
                some ((png.png_read_image (requested_transforms info.color_type info) info2
                    ((png.png_read_info src).1.foldl png_read_data src)).1.foldl png_read_data
                  ((png.png_read_info src).1.foldl png_read_data src)))
    ∧ (png.png_create_read_struct = false →
        (IMG_LoadPNG_RW host png (some src)).error =
          some "Couldn't allocate memory for PNG file or incompatible PNG dll")
    ∧ (png.png_create_read_struct = true → png.png_create_info_struct = false →
        (IMG_LoadPNG_RW host png (some src)).error =
          some "Couldn't create image information for PNG file")
    ∧ (png.png_create_read_struct = true → png.png_create_info_struct = true →
        (png.png_read_info src).2 = none →
        (IMG_LoadPNG_RW host png (some src)).error = some "Error reading the PNG file.")
    ∧ (∀ info, png.png_create_read_struct = true → png.png_create_info_struct = true →
        (png.png_read_info src).2 = some info →
        png.png_read_update_info (requested_transforms info.color_type info) info = none →
        (IMG_LoadPNG_RW host png (some src)).error = some "Error reading the PNG file.")
    ∧ (∀ info info2, png.png_create_read_struct = true → png.png_create_info_struct = true →
        (png.png_read_info src).2 = some info →
        png.png_read_update_info (requested_transforms info.color_type info) info = some info2 →
        host.alloc_surface info2.width info2.height (info2.bit_depth * info2.channels) = none →
        (IMG_LoadPNG_RW host png (some src)).error = some "Out of memory"
        ∧ (IMG_LoadPNG_RW host png (some src)).freed_surface = false)
    ∧ (∀ info info2 st, png.png_create_read_struct = true → png.png_create_info_struct = true →
        (png.png_read_info src).2 = some info →
        png.png_read_update_info (requested_transforms info.color_type info) info = some info2 →
        host.alloc_surface info2.width info2.height (info2.bit_depth * info2.channels)
          = some st →
        host.malloc_row_pointers = false →
        (IMG_LoadPNG_RW host png (some src)).error = some "Out of memory"
        ∧ (IMG_LoadPNG_RW host png (some src)).freed_surface = true)
    ∧ (∀ info info2 st, png.png_create_read_struct = true → png.png_create_info_struct = true →
        (png.png_read_info src).2 = some info →
        png.png_read_update_info (requested_transforms info.color_type info) info = some info2 →
        host.alloc_surface info2.width info2.height (info2.bit_depth * info2.channels)
          = some st →
        host.malloc_row_pointers = true →
        (png.png_read_image (requested_transforms info.color_type info) info2
          ((png.png_read_info src).1.foldl png_read_data src)).2 = false →
        (IMG_LoadPNG_RW host png (some src)).error = some "Error reading the PNG file."
        ∧ (IMG_LoadPNG_RW host png (some src)).freed_surface = true
        ∧ (IMG_LoadPNG_RW host png (some src)).freed_row_pointers = true) := by
  cases h1 : png.png_create_read_struct with
  | false =>
    simp [IMG_LoadPNG_RW, IMG_LoadPNG_RW_body, IMG_LoadPNG_RW_done, hinit, h1, SDL_RWseek,
      SDL_RWtell]
  | true =>
  cases h2 : png.png_create_info_struct with
  | false =>
    simp [IMG_LoadPNG_RW, IMG_LoadPNG_RW_body, IMG_LoadPNG_RW_done, hinit, h1, h2, SDL_RWseek,
      SDL_RWtell]
  | true =>
  have hr := SDL_RWseek_foldl_restore (png.png_read_info src).1 src
  cases h3 : (png.png_read_info src).2 with
  | none =>
    simp [IMG_LoadPNG_RW, IMG_LoadPNG_RW_body, IMG_LoadPNG_RW_done, hinit, h1, h2, h3, hr]
  | some info =>
  cases h4 : png.png_read_update_info (requested_transforms info.color_type info) info with
  | none =>
    simp [IMG_LoadPNG_RW, IMG_LoadPNG_RW_body, IMG_LoadPNG_RW_done, hinit, h1, h2, h3, h4, hr]
    all_goals (repeat' apply And.intro)
    all_goals (intros; subst_vars; simp_all)
  | some info2 =>
  cases h5 : host.alloc_surface info2.width info2.height (info2.bit_depth * info2.channels) with
  | none =>
    simp [IMG_LoadPNG_RW, IMG_LoadPNG_RW_body, IMG_LoadPNG_RW_done, hinit, h1, h2, h3, h4, h5, hr,
      SDL_AllocSurface]
    all_goals (repeat' apply And.intro)
    all_goals (intros; subst_vars; simp_all)
  | some st =>
  cases h6 : host.malloc_row_pointers with
  | false =>
    simp [IMG_LoadPNG_RW, IMG_LoadPNG_RW_body, IMG_LoadPNG_RW_done, hinit, h1, h2, h3, h4, h5, h6,
      hr, SDL_AllocSurface]
    intros; subst_vars; simp_all
  | true =>
  have hr2 := SDL_RWseek_foldl_restore2 (png.png_read_info src).1
    (png.png_read_image (requested_transforms info.color_type info) info2
      ((png.png_read_info src).1.foldl png_read_data src)).1 src
  cases h7 : (png.png_read_image (requested_transforms info.color_type info) info2
      (List.foldl png_read_data src (png.png_read_info src).1)).2 with
  | false =>
    simp [IMG_LoadPNG_RW, IMG_LoadPNG_RW_body, IMG_LoadPNG_RW_done, hinit, h1, h2, h3, h4, h5,
      h6, h7, hr2, SDL_AllocSurface]
    intros; subst_vars; simp_all
  | true =>
    simp [IMG_LoadPNG_RW, IMG_LoadPNG_RW_body, IMG_LoadPNG_RW_done, hinit, h1, h2, h3, h4, h5,
      h6, h7, SDL_AllocSurface]
    all_goals (repeat' apply And.intro)
    all_goals (intros; subst_vars; simp_all)

/-! ## Transparency, masks, palette -/

/-- An index below 2^32 survives the conversion from `int` to `Uint32`. -/
theorem toUint32_natCast (n : Nat) (h : n < 2 ^ 32) : toUint32 (n : Int) = n := by
  unfold toUint32
  have : ((n : Int) % 2 ^ 32) = n := by
    apply Int.emod_eq_of_lt <;> omega
  rw [this]; simp

/-- A `Uint32` stored in an `int` and passed on as `Uint32` is unchanged. -/
theorem toUint32_toInt32 (v : Nat) (h : v < 2 ^ 32) : toUint32 (toInt32 v) = v := by
  unfold toUint32 toInt32
  rw [Nat.mod_eq_of_lt h]
  split
  · have : ((v : Int) % 2 ^ 32) = v := by
      apply Int.emod_eq_of_lt <;> omega
    rw [this]; simp
  · have : (((v : Int) - 2 ^ 32) % 2 ^ 32) = v := by
      rw [Int.sub_emod, Int.emod_self]
      simp
      apply Int.emod_eq_of_lt <;> omega
    rw [this]; simp

/-- The transparency step on an Indexed image with exactly one 0 entry. -/
theorem tRNS_step_exactly_one (info : png_info) (t : Nat)
    (h_valid : info.tRNS_valid = true) (h_one : ExactlyOneTransparent info.trans t) (c : Int) :
    tRNS_step PNG_COLOR_TYPE_PALETTE info c = ((t : Int), []) := by
  have hs := tRNS_scan_exactly_one info.trans 0 t (-1) (by omega) h_one
  simp [tRNS_step, h_valid, hs]

/-- The transparency step on an Indexed image whose entries are all 255. -/
theorem tRNS_step_all_255 (info : png_info)
    (h_valid : info.tRNS_valid = true) (h : ∀ x ∈ info.trans, x = 255) :
    tRNS_step PNG_COLOR_TYPE_PALETTE info (-1) = (-1, []) := by
  have hs := tRNS_scan_all_255 info.trans 0 (-1) h
  simp [tRNS_step, h_valid, hs]

/-- The transparency step on an Indexed image when the scan breaks. -/
theorem tRNS_step_break (info : png_info) (c : Int)
    (h_valid : info.tRNS_valid = true) (h : (tRNS_scan info.trans 0 (-1)).1 ≠ info.trans.length) :
    tRNS_step PNG_COLOR_TYPE_PALETTE info c = (c, [Transform.expand]) := by
  simp [tRNS_step, h_valid, h]

/-- The palette step does not touch the colour key. -/
theorem load_surface_palette_colorkey (color_type : Nat) (info : png_info) (sf : SDL_Surface) :
    (load_surface_palette color_type info sf).active_colorkey = sf.active_colorkey := by
  unfold load_surface_palette
  split <;> rfl

/-- A fresh surface has no active colour key. -/
theorem SDL_AllocSurface_colorkey (host : Host) (w h d R G B A : Nat) (sf0 : SDL_Surface)
    (hs : SDL_AllocSurface host w h d R G B A = some sf0) : sf0.active_colorkey = none := by
  unfold SDL_AllocSurface at hs
  split at hs
  · cases hs
  · cases hs; rfl

/-- C1: Indexed image, tRNS chunk present, exactly one alpha entry equal to 0 (at
index `t`) and every other entry 255. The transparency step sets `ckey` to `t`
and requests no transform; the requests made in all are strip_16 and packing
only, so no expansion. When the post-transform colour type is still Indexed
and the load succeeds, the colour key active on the returned surface is the
raw index `t`. (`num_trans` is a C `int`, hence the bound on the length.) -/
theorem indexed_single_transparent_sets_colorkey (host : Host) (png : Libpng)
    (src : SDL_RWops) (info info2 : png_info) (t : Nat)
    (h_info : (png.png_read_info src).2 = some info)
    (h_type : info.color_type = PNG_COLOR_TYPE_PALETTE)
    (h_valid : info.tRNS_valid = true)
    (h_one : ExactlyOneTransparent info.trans t)
    (h_len : info.trans.length < 2 ^ 31)
    (h_upd : png.png_read_update_info (requested_transforms info.color_type info) info
      = some info2)
    (h_post : info2.color_type = PNG_COLOR_TYPE_PALETTE)
    (h_ok : (IMG_LoadPNG_RW host png (some src)).surface.isSome = true) :
    tRNS_step info.color_type info (-1) = ((t : Int), [])
    ∧ requested_transforms info.color_type info = [Transform.strip_16, Transform.packing]
    ∧ (IMG_LoadPNG_RW host png (some src)).surface.map SDL_Surface.active_colorkey
        = some (some t) := by
  have hstep := tRNS_step_exactly_one info t h_valid h_one (-1)
  rw [h_type]
  refine ⟨hstep, ?_, ?_⟩
  · rw [requested_transforms, hstep]
    rfl
  · obtain ⟨sf, hsf⟩ := Option.isSome_iff_exists.mp h_ok
    obtain ⟨i1, i2, sf0, e1, e2, e3, e4⟩ := IMG_LoadPNG_RW_surface host png src sf hsf
    rw [h_info] at e1
    cases e1
    rw [h_upd] at e2
    cases e2
    have ht : t < info.trans.length := by
      have := h_one.1
      by_contra hc
      rw [List.getElem?_eq_none (by omega)] at this
      cases this
    rw [hsf, e4]
    simp only [built_surface, Option.map_some', load_surface_palette_colorkey, h_type, hstep,
      colorkey_step, h_post]
    have hne : ((t : Int) ≠ -1) := by omega
    simp [hne, SDL_SetColorKey, SDL_Surface.active_colorkey, toUint32_natCast t (by omega)]

/-- C2: Indexed image, tRNS chunk present, two or more alpha entries equal to 0
or some entry in [1,254]. The transparency step requests `png_set_expand` and
leaves `ckey` at -1, and no surface the loader returns has an active colour
key. -/
theorem indexed_translucent_requests_expand (host : Host) (png : Libpng) (src : SDL_RWops)
    (info : png_info)
    (h_info : (png.png_read_info src).2 = some info)
    (h_type : info.color_type = PNG_COLOR_TYPE_PALETTE)
    (h_valid : info.tRNS_valid = true)
    (h_pat : 2 ≤ info.trans.count 0 ∨ ∃ x ∈ info.trans, 1 ≤ x ∧ x ≤ 254) :
    tRNS_step info.color_type info (-1) = (-1, [Transform.expand])
    ∧ requested_transforms info.color_type info
        = [Transform.strip_16, Transform.packing, Transform.expand]
    ∧ ∀ sf, (IMG_LoadPNG_RW host png (some src)).surface = some sf →
        sf.active_colorkey = none := by
  have hb := tRNS_scan_break info.trans 0 h_pat
  have hstep := tRNS_step_break info (-1) h_valid (by simpa using hb)
  rw [h_type]
  refine ⟨hstep, ?_, ?_⟩
  · rw [requested_transforms, hstep]
    rfl
  · intro sf hsf
    obtain ⟨i1, i2, sf0, e1, e2, e3, e4⟩ := IMG_LoadPNG_RW_surface host png src sf hsf
    rw [h_info] at e1
    cases e1
    rw [e4]
    simp only [built_surface, load_surface_palette_colorkey, h_type, hstep, colorkey_step]
    simp
    exact SDL_AllocSurface_colorkey _ _ _ _ _ _ _ _ _ e3

/-- C3, as amended: the Indexed transparency decision is a three-way split. With
exactly one 0 entry and all others 255 the step sets `ckey` to that index and
requests nothing; with every entry 255 (the empty list included) it leaves
`ckey` at -1 and requests nothing; for every other alpha list it leaves `ckey`
at -1 and requests `png_set_expand`. -/
theorem indexed_transparency_three_way_split (info : png_info) (h_valid : info.tRNS_valid = true) :
    (∀ t, ExactlyOneTransparent info.trans t →
        tRNS_step PNG_COLOR_TYPE_PALETTE info (-1) = ((t : Int), []))
    ∧ ((∀ x ∈ info.trans, x = 255) →
        tRNS_step PNG_COLOR_TYPE_PALETTE info (-1) = (-1, []))
    ∧ ((¬ ∃ t, ExactlyOneTransparent info.trans t) → (¬ ∀ x ∈ info.trans, x = 255) →
        tRNS_step PNG_COLOR_TYPE_PALETTE info (-1) = (-1, [Transform.expand])) := by
  refine ⟨fun t h => tRNS_step_exactly_one info t h_valid h (-1),
    fun h => tRNS_step_all_255 info h_valid h, ?_⟩
  intro h1 h2
  apply tRNS_step_break info (-1) h_valid
  intro hc
  obtain ⟨ha, hb⟩ := tRNS_scan_complete info.trans 0 (-1) (by simpa using hc)
  rcases zero_or_one_transparent info.trans ha (by simpa using hb) with h | h
  · exact h2 h
  · exact h1 h

/-- C3, counterexample: the alpha lists [255, 255] and [] are not of the
exactly-one-zero pattern, yet the transparency step requests no expansion for
them (and sets no key). -/
theorem indexed_all_255_no_expand :
    (¬ ∃ t, ExactlyOneTransparent (indexed_info [255, 255]).trans t)
    ∧ tRNS_step PNG_COLOR_TYPE_PALETTE (indexed_info [255, 255]) (-1) = (-1, [])
    ∧ (¬ ∃ t, ExactlyOneTransparent (indexed_info []).trans t)
    ∧ tRNS_step PNG_COLOR_TYPE_PALETTE (indexed_info []) (-1) = (-1, []) := by
  refine ⟨?_, by decide, ?_, by decide⟩
  · rintro ⟨t, h0, -⟩
    simp only [indexed_info] at h0
    rcases t with _ | _ | t <;> simp at h0
  · rintro ⟨t, h0, -⟩
    simp [indexed_info] at h0

/-- Masking with a byte mask at bit `k` and shifting down by `k` takes the
byte at bit `k`. -/
theorem and_byte_shiftRight (v k : Nat) : (v &&& (0xFF <<< k)) >>> k = (v >>> k) % 256 := by
  apply Nat.eq_of_testBit_eq
  intro i
  have h1 : (255 : Nat) = 2 ^ 8 - 1 := by norm_num
  have h2 : (256 : Nat) = 2 ^ 8 := by norm_num
  rw [h2, Nat.testBit_mod_two_pow, Nat.testBit_shiftRight, Nat.testBit_shiftRight,
    Nat.testBit_and, Nat.testBit_shiftLeft, h1, Nat.testBit_two_pow_sub_one]
  simp
  by_cases hi : i < 8 <;> simp [hi, Bool.and_comm]

/-- Shift of the mask 0xFF. -/
theorem mask_shift_FF : mask_shift 0xFF = 0 := by decide
/-- Shift of the mask 0xFF00. -/
theorem mask_shift_FF00 : mask_shift 0xFF00 = 8 := by decide
/-- Shift of the mask 0xFF0000. -/
theorem mask_shift_FF0000 : mask_shift 0xFF0000 = 16 := by decide
/-- Shift of the mask 0xFF000000. -/
theorem mask_shift_FF000000 : mask_shift 0xFF000000 = 24 := by decide
/-- Loss of the mask 0xFF. -/
theorem mask_loss_FF : mask_loss 0xFF = 0 := by decide
/-- Loss of the mask 0xFF00. -/
theorem mask_loss_FF00 : mask_loss 0xFF00 = 0 := by decide
/-- Loss of the mask 0xFF0000. -/
theorem mask_loss_FF0000 : mask_loss 0xFF0000 = 0 := by decide
/-- Loss of the mask 0xFF000000. -/
theorem mask_loss_FF000000 : mask_loss 0xFF000000 = 0 := by decide

/-- The channel under 0xFF is the lowest byte. -/
theorem channel_of_FF (v : Nat) : channel_of 0xFF v = v % 256 := by
  have h := and_byte_shiftRight v 0
  simpa [channel_of, mask_shift_FF] using h

/-- The channel under 0xFF00 is the second byte. -/
theorem channel_of_FF00 (v : Nat) : channel_of 0xFF00 v = v / 256 % 256 := by
  have h := and_byte_shiftRight v 8
  simp only [Nat.shiftRight_eq_div_pow] at h ⊢
  simpa [channel_of, mask_shift_FF00, Nat.shiftRight_eq_div_pow] using h

/-- The channel under 0xFF0000 is the third byte. -/
theorem channel_of_FF0000 (v : Nat) : channel_of 0xFF0000 v = v / 65536 % 256 := by
  have h := and_byte_shiftRight v 16
  simp only [Nat.shiftRight_eq_div_pow] at h ⊢
  simpa [channel_of, mask_shift_FF0000, Nat.shiftRight_eq_div_pow] using h

/-- The channel under 0xFF000000 is the fourth byte. -/
theorem channel_of_FF000000 (v : Nat) : channel_of 0xFF000000 v = v / 16777216 % 256 := by
  have h := and_byte_shiftRight v 24
  simp only [Nat.shiftRight_eq_div_pow] at h ⊢
  simpa [channel_of, mask_shift_FF000000, Nat.shiftRight_eq_div_pow] using h

/-- Or-ing a value shifted past `x` onto `x` adds it. -/
theorem or_shiftLeft_of_lt (x y k : Nat) (hx : x < 2 ^ k) : x ||| y <<< k = x + 2 ^ k * y := by
  rw [Nat.or_comm, Nat.shiftLeft_eq, Nat.mul_comm, ← Nat.mul_add_lt_is_or hx, Nat.add_comm]

/-- The same with the operands swapped. -/
theorem shiftLeft_or_of_lt (x y k : Nat) (hx : x < 2 ^ k) : y <<< k ||| x = x + 2 ^ k * y := by
  rw [Nat.or_comm, or_shiftLeft_of_lt x y k hx]

/-- The masks on a little-endian host with 4 channels. -/
theorem channel_masks_lil_4 (color_type : Nat) (h : color_type ≠ PNG_COLOR_TYPE_PALETTE) :
    channel_masks ByteOrder.SDL_LIL_ENDIAN color_type 4 = (0xFF, 0xFF00, 0xFF0000, 0xFF000000) := by
  simp [channel_masks, h]

/-- The masks on a little-endian host with another channel count. -/
theorem channel_masks_lil_other (color_type channels : Nat)
    (h : color_type ≠ PNG_COLOR_TYPE_PALETTE) (hc : channels ≠ 4) :
    channel_masks ByteOrder.SDL_LIL_ENDIAN color_type channels = (0xFF, 0xFF00, 0xFF0000, 0) := by
  simp [channel_masks, h, hc]

/-- The masks on a big-endian host with 4 channels. -/
theorem channel_masks_big_4 (color_type : Nat) (h : color_type ≠ PNG_COLOR_TYPE_PALETTE) :
    channel_masks ByteOrder.SDL_BIG_ENDIAN color_type 4 = (0xFF000000, 0xFF0000, 0xFF00, 0xFF) := by
  simp [channel_masks, h]

/-- The masks on a big-endian host with another channel count. -/
theorem channel_masks_big_other (color_type channels : Nat)
    (h : color_type ≠ PNG_COLOR_TYPE_PALETTE) (hc : channels ≠ 4) :
    channel_masks ByteOrder.SDL_BIG_ENDIAN color_type channels = (0xFF0000, 0xFF00, 0xFF, 0) := by
  simp [channel_masks, h, hc]

/-- The mask 0xFF is a byte mask. -/
theorem isByteMask_FF : IsByteMask 0xFF := ⟨0, by decide⟩
/-- The mask 0xFF00 is a byte mask. -/
theorem isByteMask_FF00 : IsByteMask 0xFF00 := ⟨1, by decide⟩
/-- The mask 0xFF0000 is a byte mask. -/
theorem isByteMask_FF0000 : IsByteMask 0xFF0000 := ⟨2, by decide⟩
/-- The mask 0xFF000000 is a byte mask. -/
theorem isByteMask_FF000000 : IsByteMask 0xFF000000 := ⟨3, by decide⟩

/-- C10: channel-mask derivation (lines 413-427). For a post-transform Indexed
image all four masks are 0. Otherwise, with 3 or 4 channels and on either
byte order: R, G, B are pairwise disjoint byte masks; the alpha mask is
non-zero exactly for 4 channels and is then a byte mask disjoint from the
others; every mask is below 2^(8 * channels); and a pixel whose bytes in memory
are r, g, b (, a), read as an integer of the host's byte order, has r in its R
channel, g in G, b in B (and a in A). -/
theorem channel_masks_layout :
    (∀ order channels, channel_masks order PNG_COLOR_TYPE_PALETTE channels = (0, 0, 0, 0))
    ∧ ∀ order color_type channels, color_type ≠ PNG_COLOR_TYPE_PALETTE →
        channels = 3 ∨ channels = 4 →
        IsByteMask (channel_masks order color_type channels).1
        ∧ IsByteMask (channel_masks order color_type channels).2.1
        ∧ IsByteMask (channel_masks order color_type channels).2.2.1
        ∧ (channel_masks order color_type channels).1
            &&& (channel_masks order color_type channels).2.1 = 0
        ∧ (channel_masks order color_type channels).1
            &&& (channel_masks order color_type channels).2.2.1 = 0
        ∧ (channel_masks order color_type channels).2.1
            &&& (channel_masks order color_type channels).2.2.1 = 0
        ∧ ((channel_masks order color_type channels).2.2.2 ≠ 0 ↔ channels = 4)
        ∧ (channels = 4 →
            IsByteMask (channel_masks order color_type channels).2.2.2
            ∧ (channel_masks order color_type channels).2.2.2
                &&& (channel_masks order color_type channels).1 = 0
            ∧ (channel_masks order color_type channels).2.2.2
                &&& (channel_masks order color_type channels).2.1 = 0
            ∧ (channel_masks order color_type channels).2.2.2
                &&& (channel_masks order color_type channels).2.2.1 = 0)
        ∧ (channel_masks order color_type channels).1 < 2 ^ (8 * channels)
        ∧ (channel_masks order color_type channels).2.1 < 2 ^ (8 * channels)
        ∧ (channel_masks order color_type channels).2.2.1 < 2 ^ (8 * channels)
        ∧ (channel_masks order color_type channels).2.2.2 < 2 ^ (8 * channels)
        ∧ (channels = 3 → ∀ r g b, r < 256 → g < 256 → b < 256 →
            channel_of (channel_masks order color_type channels).1
              (host_order_value order [r, g, b]) = r
            ∧ channel_of (channel_masks order color_type channels).2.1
              (host_order_value order [r, g, b]) = g
            ∧ channel_of (channel_masks order color_type channels).2.2.1
              (host_order_value order [r, g, b]) = b)
        ∧ (channels = 4 → ∀ r g b a, r < 256 → g < 256 → b < 256 → a < 256 →
            channel_of (channel_masks order color_type channels).1
              (host_order_value order [r, g, b, a]) = r
            ∧ channel_of (channel_masks order color_type channels).2.1
              (host_order_value order [r, g, b, a]) = g
            ∧ channel_of (channel_masks order color_type channels).2.2.1
              (host_order_value order [r, g, b, a]) = b
            ∧ channel_of (channel_masks order color_type channels).2.2.2
              (host_order_value order [r, g, b, a]) = a) := by
  constructor
  · intro order channels
    simp [channel_masks]
  · intro order color_type channels hne hch
    rcases hch with rfl | rfl <;> cases order
    · rw [channel_masks_lil_other _ _ hne (by decide)]
      refine ⟨isByteMask_FF, isByteMask_FF00, isByteMask_FF0000, by decide, by decide, by decide,
        by decide, fun h => absurd h (by decide), by decide, by decide, by decide, by decide, ?_,
        fun h => absurd h (by decide)⟩
      intro _ r g b hr hg hb
      simp only [host_order_value, List.foldr, channel_of_FF, channel_of_FF00, channel_of_FF0000]
      omega
    · rw [channel_masks_big_other _ _ hne (by decide)]
      refine ⟨isByteMask_FF0000, isByteMask_FF00, isByteMask_FF, by decide, by decide, by decide,
        by decide, fun h => absurd h (by decide), by decide, by decide, by decide, by decide, ?_,
        fun h => absurd h (by decide)⟩
      intro _ r g b hr hg hb
      simp only [host_order_value, List.foldl, channel_of_FF, channel_of_FF00, channel_of_FF0000]
      omega
    · rw [channel_masks_lil_4 _ hne]
      refine ⟨isByteMask_FF, isByteMask_FF00, isByteMask_FF0000, by decide, by decide, by decide,
        by decide, ?_, by decide, by decide, by decide, by decide,
        fun h => absurd h (by decide), ?_⟩
      · intro _
        exact ⟨isByteMask_FF000000, by decide, by decide, by decide⟩
      · intro _ r g b a hr hg hb ha
        simp only [host_order_value, List.foldr, channel_of_FF, channel_of_FF00,
          channel_of_FF0000, channel_of_FF000000]
        omega
    · rw [channel_masks_big_4 _ hne]
      refine ⟨isByteMask_FF000000, isByteMask_FF0000, isByteMask_FF00, by decide, by decide,
        by decide, by decide, ?_, by decide, by decide, by decide, by decide,
        fun h => absurd h (by decide), ?_⟩
      · intro _
        exact ⟨isByteMask_FF, by decide, by decide, by decide⟩
      · intro _ r g b a hr hg hb ha
        simp only [host_order_value, List.foldl, channel_of_FF, channel_of_FF00,
          channel_of_FF0000, channel_of_FF000000]
        omega

/-- The palette loop over `0..n`: entries below `n` get their r, g, b, the rest
of the array is as before. -/
theorem set_rgb_foldl (n : Nat) (fr fg fb : Nat → Nat) (colors : Nat → SDL_Color) (j : Nat) :
    ((List.range n).foldl (fun cs i => set_rgb cs i (fr i) (fg i) (fb i)) colors) j
      = if j < n then { colors j with r := fr j, g := fg j, b := fb j } else colors j := by
  induction n with
  | zero => simp
  | succ n ih =>
    rw [List.range_succ, List.foldl_append]
    simp only [List.foldl_cons, List.foldl_nil, set_rgb]
    by_cases hj : j = n
    · subst hj
      simp [ih]
    · rw [if_neg hj, ih]
      by_cases hlt : j < n
      · simp [hlt, Nat.lt_succ_of_lt hlt]
      · have : ¬ j < n + 1 := by omega
        simp [hlt, this]

/-- A fresh surface carries the palette slot the allocator chose. -/
theorem SDL_AllocSurface_palette (host : Host) (w h d R G B A : Nat) (sf0 : SDL_Surface)
    (hs : SDL_AllocSurface host w h d R G B A = some sf0) :
    ∃ st, host.alloc_surface w h d = some st ∧ sf0.format.palette = st.palette := by
  unfold SDL_AllocSurface at hs
  split at hs
  · cases hs
  · rename_i st hst
    cases hs
    exact ⟨st, hst, rfl⟩

/-- The colour-key step does not touch the palette. -/
theorem colorkey_step_palette (host : Host) (color_type : Nat) (transv : png_color_16)
    (ckey : Int) (sf : SDL_Surface) :
    (colorkey_step host color_type transv ckey sf).format.palette = sf.format.palette := by
  unfold colorkey_step
  split <;> rfl

/-- The palette step maps the palette slot through `load_palette`. -/
theorem load_surface_palette_palette (color_type : Nat) (info : png_info) (sf : SDL_Surface) :
    (load_surface_palette color_type info sf).format.palette
      = sf.format.palette.map (load_palette color_type info) := by
  unfold load_surface_palette
  split <;> simp [*]

/-- C9: palette materialization (lines 467-485). If the post-transform colour
type is Grayscale the palette gets 256 entries and entry `i` is `(i, i, i)`;
otherwise, with a non-empty source palette of `n` entries, it gets `n` entries
and entry `i` has the r, g, b of source entry `i`; otherwise it is left as it
was, length and entries. The last conjunct ties this to the loader: the
palette of a returned surface is the slot the allocator set up, passed
through this step with the post-transform header. -/
theorem palette_materialization (color_type : Nat) (info : png_info) (palette : SDL_Palette) :
    (color_type = PNG_COLOR_TYPE_GRAY →
        (load_palette color_type info palette).ncolors = 256
        ∧ ∀ i, i < 256 →
            ((load_palette color_type info palette).colors i).r = i
            ∧ ((load_palette color_type info palette).colors i).g = i
            ∧ ((load_palette color_type info palette).colors i).b = i)
    ∧ (color_type ≠ PNG_COLOR_TYPE_GRAY → info.palette.length > 0 →
        (load_palette color_type info palette).ncolors = info.palette.length
        ∧ ∀ i c, info.palette[i]? = some c →
            ((load_palette color_type info palette).colors i).r = c.red
            ∧ ((load_palette color_type info palette).colors i).g = c.green
            ∧ ((load_palette color_type info palette).colors i).b = c.blue)
    ∧ (color_type ≠ PNG_COLOR_TYPE_GRAY → info.palette.length = 0 →
        load_palette color_type info palette = palette)
    ∧ (∀ host png src sf, (IMG_LoadPNG_RW host png (some src)).surface = some sf →
        ∃ info1 info2 st,
          (png.png_read_info src).2 = some info1
          ∧ png.png_read_update_info (requested_transforms info1.color_type info1) info1
              = some info2
          ∧ host.alloc_surface info2.width info2.height (info2.bit_depth * info2.channels)
              = some st
          ∧ sf.format.palette = st.palette.map (load_palette info2.color_type info2)) := by
  refine ⟨?_, ?_, ?_, ?_⟩
  · intro hg
    refine ⟨by simp [load_palette, hg], ?_⟩
    intro i hi
    simp only [load_palette, hg, if_true]
    rw [set_rgb_foldl 256 toUint8 toUint8 toUint8]
    simp [hi, toUint8, Nat.mod_eq_of_lt hi]
  · intro hg hn
    refine ⟨by simp [load_palette, hg, hn], ?_⟩
    intro i c hc
    have hi : i < info.palette.length := by
      by_contra h
      rw [List.getElem?_eq_none (by omega)] at hc
      cases hc
    simp only [load_palette, hg, if_false, hn, if_true]
    rw [set_rgb_foldl info.palette.length (fun i => (info.palette.getD i default).red)
      (fun i => (info.palette.getD i default).green)
      (fun i => (info.palette.getD i default).blue)]
    have he : info.palette[i] = c := by
      rw [List.getElem?_eq_getElem hi] at hc
      exact Option.some.inj hc
    simp [hi, he]
  · intro hg hn
    simp [load_palette, hg, hn]
  · intro host png src sf hsf
    obtain ⟨i1, i2, sf0, e1, e2, e3, e4⟩ := IMG_LoadPNG_RW_surface host png src sf hsf
    obtain ⟨st, hst, hp⟩ := SDL_AllocSurface_palette _ _ _ _ _ _ _ _ _ e3
    refine ⟨i1, i2, st, e1, e2, hst, ?_⟩
    rw [e4, built_surface, load_surface_palette_palette, colorkey_step_palette, hp]

/-- Four bytes or-ed at bits 0, 8, 16, 24. -/
theorem pack_lil (r g b a : Nat) (hr : r < 256) (hg : g < 256) (hb : b < 256) :
    r <<< 0 ||| g <<< 8 ||| b <<< 16 ||| a <<< 24 = r + 256 * g + 65536 * b + 16777216 * a := by
  have h1 : r ||| g <<< 8 = r + 2 ^ 8 * g := or_shiftLeft_of_lt r g 8 (by omega)
  have h2 : (r + 2 ^ 8 * g) ||| b <<< 16 = (r + 2 ^ 8 * g) + 2 ^ 16 * b :=
    or_shiftLeft_of_lt _ b 16 (by omega)
  have h3 : (r + 2 ^ 8 * g + 2 ^ 16 * b) ||| a <<< 24 = (r + 2 ^ 8 * g + 2 ^ 16 * b) + 2 ^ 24 * a :=
    or_shiftLeft_of_lt _ a 24 (by omega)
  rw [Nat.shiftLeft_zero, h1, h2, h3]
  norm_num

/-- Four or-ed values in the opposite order. -/
theorem lor_rev4 (A B C D : Nat) : A ||| B ||| C ||| D = D ||| C ||| B ||| A := by
  rw [Nat.lor_comm A B, Nat.lor_comm (B ||| A) C, Nat.lor_comm (C ||| (B ||| A)) D,
    ← Nat.lor_assoc, ← Nat.lor_assoc]

/-- Four bytes or-ed at bits 24, 16, 8, 0. -/
theorem pack_big (r g b a : Nat) (hg : g < 256) (hb : b < 256) (ha : a < 256) :
    r <<< 24 ||| g <<< 16 ||| b <<< 8 ||| a <<< 0 = a + 256 * b + 65536 * g + 16777216 * r := by
  rw [← pack_lil a b g r ha hb hg]
  exact lor_rev4 _ _ _ _

/-- Three bytes or-ed at bits 0, 8, 16. -/
theorem pack_lil3 (r g b : Nat) (hr : r < 256) (hg : g < 256) (hb : b < 256) :
    r <<< 0 ||| g <<< 8 ||| b <<< 16 = r + 256 * g + 65536 * b := by
  have h := pack_lil r g b 0 hr hg hb
  simpa using h

/-- Three bytes or-ed at bits 16, 8, 0. -/
theorem pack_big3 (r g b : Nat) (hr : r < 256) (hg : g < 256) (hb : b < 256) :
    r <<< 16 ||| g <<< 8 ||| b <<< 0 = b + 256 * g + 65536 * r := by
  rw [← pack_lil3 b g r hb hg hr, Nat.lor_comm (r <<< 16) (g <<< 8),
    Nat.lor_comm (g <<< 8 ||| r <<< 16) (b <<< 0), ← Nat.lor_assoc]

/-- The format of a fresh surface, from the masks it was asked for. -/
theorem SDL_AllocSurface_format (host : Host) (w h d R G B A : Nat) (sf0 : SDL_Surface)
    (hs : SDL_AllocSurface host w h d R G B A = some sf0) :
    sf0.SRCCOLORKEY = false
    ∧ sf0.format.Rmask = R ∧ sf0.format.Gmask = G ∧ sf0.format.Bmask = B ∧ sf0.format.Amask = A
    ∧ sf0.format.Rshift = mask_shift R ∧ sf0.format.Gshift = mask_shift G
    ∧ sf0.format.Bshift = mask_shift B
    ∧ sf0.format.Rloss = mask_loss R ∧ sf0.format.Gloss = mask_loss G
    ∧ sf0.format.Bloss = mask_loss B := by
  unfold SDL_AllocSurface at hs
  split at hs
  · cases hs
  · cases hs
    simp

/-- On a direct-colour format with the loader's masks, `SDL_MapRGB` of three
bytes fits 32 bits and carries each byte in its channel. -/
theorem SDL_MapRGB_channels (host : Host) (order : ByteOrder) (color_type channels : Nat)
    (format : SDL_PixelFormat) (r g b : Nat)
    (hne : color_type ≠ PNG_COLOR_TYPE_PALETTE)
    (hpal : format.palette = none)
    (hm : (format.Rmask, format.Gmask, format.Bmask, format.Amask)
      = channel_masks order color_type channels)
    (hs : format.Rshift = mask_shift format.Rmask ∧ format.Gshift = mask_shift format.Gmask
      ∧ format.Bshift = mask_shift format.Bmask)
    (hl : format.Rloss = mask_loss format.Rmask ∧ format.Gloss = mask_loss format.Gmask
      ∧ format.Bloss = mask_loss format.Bmask)
    (hr : r < 256) (hg : g < 256) (hb : b < 256) :
    SDL_MapRGB host format r g b < 2 ^ 32
    ∧ channel_of format.Rmask (SDL_MapRGB host format r g b) = r
    ∧ channel_of format.Gmask (SDL_MapRGB host format r g b) = g
    ∧ channel_of format.Bmask (SDL_MapRGB host format r g b) = b := by
  obtain ⟨hs1, hs2, hs3⟩ := hs
  obtain ⟨hl1, hl2, hl3⟩ := hl
  have hA : (0xFF000000 : Nat) = 255 <<< 24 := by decide
  have hF : (0xFF : Nat) = 255 <<< 0 := by decide
  by_cases hc : channels = 4 <;> cases order
  · subst hc
    rw [channel_masks_lil_4 _ hne] at hm
    simp only [Prod.mk.injEq] at hm
    obtain ⟨m1, m2, m3, m4⟩ := hm
    rw [m1] at hs1 hl1; rw [m2] at hs2 hl2; rw [m3] at hs3 hl3
    simp only [SDL_MapRGB, hpal, hs1, hs2, hs3, hl1, hl2, hl3, m1, m2, m3, m4, mask_shift_FF,
      mask_shift_FF00, mask_shift_FF0000, mask_loss_FF, mask_loss_FF00, mask_loss_FF0000,
      Nat.shiftRight_zero, channel_of_FF, channel_of_FF00, channel_of_FF0000]
    rw [hA, pack_lil r g b 255 hr hg hb]
    omega
  · subst hc
    rw [channel_masks_big_4 _ hne] at hm
    simp only [Prod.mk.injEq] at hm
    obtain ⟨m1, m2, m3, m4⟩ := hm
    rw [m1] at hs1 hl1; rw [m2] at hs2 hl2; rw [m3] at hs3 hl3
    simp only [SDL_MapRGB, hpal, hs1, hs2, hs3, hl1, hl2, hl3, m1, m2, m3, m4,
      mask_shift_FF000000, mask_shift_FF00, mask_shift_FF0000, mask_loss_FF000000, mask_loss_FF00,
      mask_loss_FF0000, Nat.shiftRight_zero, channel_of_FF000000, channel_of_FF00,
      channel_of_FF0000]
    rw [hF, pack_big r g b 255 hg hb (by omega)]
    omega
  · rw [channel_masks_lil_other _ _ hne hc] at hm
    simp only [Prod.mk.injEq] at hm
    obtain ⟨m1, m2, m3, m4⟩ := hm
    rw [m1] at hs1 hl1; rw [m2] at hs2 hl2; rw [m3] at hs3 hl3
    simp only [SDL_MapRGB, hpal, hs1, hs2, hs3, hl1, hl2, hl3, m1, m2, m3, m4, mask_shift_FF,
      mask_shift_FF00, mask_shift_FF0000, mask_loss_FF, mask_loss_FF00, mask_loss_FF0000,
      Nat.shiftRight_zero, channel_of_FF, channel_of_FF00, channel_of_FF0000]
    rw [Nat.or_zero, pack_lil3 r g b hr hg hb]
    omega
  · rw [channel_masks_big_other _ _ hne hc] at hm
    simp only [Prod.mk.injEq] at hm
    obtain ⟨m1, m2, m3, m4⟩ := hm
    rw [m1] at hs1 hl1; rw [m2] at hs2 hl2; rw [m3] at hs3 hl3
    simp only [SDL_MapRGB, hpal, hs1, hs2, hs3, hl1, hl2, hl3, m1, m2, m3, m4, mask_shift_FF,
      mask_shift_FF00, mask_shift_FF0000, mask_loss_FF, mask_loss_FF00, mask_loss_FF0000,
      Nat.shiftRight_zero, channel_of_FF, channel_of_FF00, channel_of_FF0000]
    rw [Nat.or_zero, pack_big3 r g b hr hg hb]
    omega

/-- The transparency step on a non-indexed image with a tRNS chunk. -/
theorem tRNS_step_non_indexed (color_type : Nat) (info : png_info) (c : Int)
    (h_type : color_type ≠ PNG_COLOR_TYPE_PALETTE) (h_valid : info.tRNS_valid = true) :
    tRNS_step color_type info c = (0, []) := by
  simp [tRNS_step, h_valid, h_type]

/-- What lines 435-443 compute for a non-indexed image with a tRNS chunk whose
colour reads `(r, g, b)` when the key is resolved: on a direct-colour surface
the active key is `SDL_MapRGB` of the three `(Uint8)` casts, so its R, G and B
channels hold the low bytes of r, g and b. -/
theorem non_indexed_colorkey_casts (host : Host) (png : Libpng) (src : SDL_RWops)
    (info info2 : png_info) (r g b : Nat)
    (h_info : (png.png_read_info src).2 = some info)
    (h_type : info.color_type ≠ PNG_COLOR_TYPE_PALETTE)
    (h_valid : info.tRNS_valid = true)
    (h_upd : png.png_read_update_info (requested_transforms info.color_type info) info
      = some info2)
    (h_post : info2.color_type ≠ PNG_COLOR_TYPE_PALETTE)
    (h_rgb : info2.trans_values.red = r ∧ info2.trans_values.green = g
      ∧ info2.trans_values.blue = b)
    (h_direct : ∀ st,
      host.alloc_surface info2.width info2.height (info2.bit_depth * info2.channels) = some st →
      st.palette = none)
    (h_ok : (IMG_LoadPNG_RW host png (some src)).surface.isSome = true) :
    tRNS_step info.color_type info (-1) = (0, [])
    ∧ ∃ sf key,
        (IMG_LoadPNG_RW host png (some src)).surface = some sf
        ∧ (sf.format.Rmask, sf.format.Gmask, sf.format.Bmask, sf.format.Amask)
            = channel_masks host.SDL_BYTEORDER info2.color_type info2.channels
        ∧ key = SDL_MapRGB host sf.format (r % 256) (g % 256) (b % 256)
        ∧ sf.active_colorkey = some key
        ∧ channel_of sf.format.Rmask key = r % 256
        ∧ channel_of sf.format.Gmask key = g % 256
        ∧ channel_of sf.format.Bmask key = b % 256 := by
  have hstep := tRNS_step_non_indexed info.color_type info (-1) h_type h_valid
  refine ⟨hstep, ?_⟩
  obtain ⟨sf, hsf⟩ := Option.isSome_iff_exists.mp h_ok
  obtain ⟨i1, i2, sf0, e1, e2, e3, e4⟩ := IMG_LoadPNG_RW_surface host png src sf hsf
  rw [h_info] at e1
  cases e1
  rw [h_upd] at e2
  cases e2
  obtain ⟨st, hst, hp⟩ := SDL_AllocSurface_palette _ _ _ _ _ _ _ _ _ e3
  have hpal0 : sf0.format.palette = none := by rw [hp]; exact h_direct st hst
  obtain ⟨f0, f1, f2, f3, f4, f5, f6, f7, f8, f9, f10⟩ :=
    SDL_AllocSurface_format _ _ _ _ _ _ _ _ _ e3
  have hm0 : (sf0.format.Rmask, sf0.format.Gmask, sf0.format.Bmask, sf0.format.Amask)
      = channel_masks host.SDL_BYTEORDER info2.color_type info2.channels := by
    rw [f1, f2, f3, f4]
  have hchan := SDL_MapRGB_channels host host.SDL_BYTEORDER info2.color_type info2.channels
    sf0.format (r % 256) (g % 256)
    (b % 256) h_post hpal0 hm0
    ⟨by rw [f5, f1], by rw [f6, f2], by rw [f7, f3]⟩
    ⟨by rw [f8, f1], by rw [f9, f2], by rw [f10, f3]⟩
    (Nat.mod_lt _ (by decide)) (Nat.mod_lt _ (by decide)) (Nat.mod_lt _ (by decide))
  obtain ⟨hlt, c1, c2, c3⟩ := hchan
  have hsf_eq : sf = SDL_SetColorKey sf0 (SDL_MapRGB host sf0.format
      (r % 256) (g % 256)
      (b % 256)) := by
    rw [e4]
    simp only [built_surface, hstep, colorkey_step, load_surface_palette]
    have h01 : ((0 : Int) ≠ -1) := by decide
    simp only [h01, ne_eq, not_false_eq_true, if_true, h_post, toUint8, h_rgb.1, h_rgb.2.1,
      h_rgb.2.2,
      toUint32_toInt32 _ hlt, SDL_SetColorKey, hpal0]
  have hmap : SDL_MapRGB host sf.format (r % 256)
      (g % 256) (b % 256)
      = SDL_MapRGB host sf0.format (r % 256)
      (g % 256) (b % 256) := by
    rw [hsf_eq]
    simp only [SDL_MapRGB, SDL_SetColorKey, hpal0]
  refine ⟨sf, _, hsf, ?_, rfl, ?_, ?_, ?_, ?_⟩
  · rw [← hm0, hsf_eq]; rfl
  · rw [hmap, hsf_eq]; rfl
  · rw [hmap]; rw [hsf_eq]; exact c1
  · rw [hmap]; rw [hsf_eq]; exact c2
  · rw [hmap]; rw [hsf_eq]; exact c3

/-! ## Concrete runs -/

/-- Witness for C1: a 2x2 Indexed image with alpha list [255, 0, 255] on a
little-endian host: the key is index 1. -/
theorem indexed_single_transparent_sets_colorkey_witness :
    ExactlyOneTransparent (indexed_info [255, 0, 255]).trans 1
    ∧ (IMG_LoadPNG_RW (sample_host ByteOrder.SDL_LIL_ENDIAN)
        (sample_engine (indexed_info [255, 0, 255]) (indexed_info [255, 0, 255]) true)
        (some sample_stream)).surface.isSome = true
    ∧ tRNS_step (indexed_info [255, 0, 255]).color_type (indexed_info [255, 0, 255]) (-1)
        = (((1 : Nat) : Int), [])
    ∧ requested_transforms (indexed_info [255, 0, 255]).color_type (indexed_info [255, 0, 255])
        = [Transform.strip_16, Transform.packing]
    ∧ (IMG_LoadPNG_RW (sample_host ByteOrder.SDL_LIL_ENDIAN)
        (sample_engine (indexed_info [255, 0, 255]) (indexed_info [255, 0, 255]) true)
        (some sample_stream)).surface.map SDL_Surface.active_colorkey = some (some 1) :=
  ⟨⟨by decide, by decide⟩, by decide,
    indexed_single_transparent_sets_colorkey (sample_host ByteOrder.SDL_LIL_ENDIAN)
      (sample_engine (indexed_info [255, 0, 255]) (indexed_info [255, 0, 255]) true)
      sample_stream (indexed_info [255, 0, 255]) (indexed_info [255, 0, 255]) 1
      rfl rfl rfl ⟨by decide, by decide⟩ (by decide) rfl rfl (by decide)⟩

/-- Witness for C2: alpha list [0, 255, 0] (two zeros); the engine answers the
expansion with an RGB+Alpha header. -/
theorem indexed_translucent_requests_expand_witness :
    (2 ≤ (indexed_info [0, 255, 0]).trans.count 0
      ∨ ∃ x ∈ (indexed_info [0, 255, 0]).trans, 1 ≤ x ∧ x ≤ 254)
    ∧ tRNS_step (indexed_info [0, 255, 0]).color_type (indexed_info [0, 255, 0]) (-1)
        = (-1, [Transform.expand])
    ∧ requested_transforms (indexed_info [0, 255, 0]).color_type (indexed_info [0, 255, 0])
        = [Transform.strip_16, Transform.packing, Transform.expand]
    ∧ ∀ sf, (IMG_LoadPNG_RW (sample_host ByteOrder.SDL_LIL_ENDIAN)
        (sample_engine (indexed_info [0, 255, 0])
          { indexed_info [0, 255, 0] with color_type := PNG_COLOR_TYPE_RGB_ALPHA, channels := 4 }
          true)
        (some sample_stream)).surface = some sf → sf.active_colorkey = none :=
  ⟨Or.inl (by decide),
    indexed_translucent_requests_expand (sample_host ByteOrder.SDL_LIL_ENDIAN)
      (sample_engine (indexed_info [0, 255, 0])
        { indexed_info [0, 255, 0] with color_type := PNG_COLOR_TYPE_RGB_ALPHA, channels := 4 }
        true)
      sample_stream (indexed_info [0, 255, 0]) rfl rfl rfl (Or.inl (by decide))⟩

/-- Witness for the amended C3: alpha list [255, 0, 255]. -/
theorem indexed_transparency_three_way_split_witness :
    (indexed_info [255, 0, 255]).tRNS_valid = true
    ∧ tRNS_step PNG_COLOR_TYPE_PALETTE (indexed_info [255, 0, 255]) (-1)
        = (((1 : Nat) : Int), []) :=
  ⟨rfl, (indexed_transparency_three_way_split (indexed_info [255, 0, 255]) rfl).1 1
    ⟨by decide, by decide⟩⟩

/-- C4, the code at the failing input: a 16-bit RGB image whose tRNS chunk names
`(0x1234, 0xABCD, 0xFFFF)`, loaded on a little-endian host. The transparency
step chooses the colour key and requests nothing. The key activated is
0xFFCD34: its R, G, B channels hold the low bytes 0x34, 0xCD, 0xFF. The 16-to-8
reduction leaves a pixel of the named colour with the high bytes 0x12, 0xAB,
0xFF, which the surface's format encodes as 0xFFAB12: the key is not the
encoding of the colour the chunk names. -/
theorem rgb16_colorkey_is_not_the_named_colour :
    tRNS_step (rgb_info 16 0x1234 0xABCD 0xFFFF).color_type
        (rgb_info 16 0x1234 0xABCD 0xFFFF) (-1) = (0, [])
    ∧ (IMG_LoadPNG_RW (sample_host ByteOrder.SDL_LIL_ENDIAN)
        (sample_engine (rgb_info 16 0x1234 0xABCD 0xFFFF) (rgb_info 8 0x1234 0xABCD 0xFFFF) true)
        (some sample_stream)).surface.map SDL_Surface.active_colorkey = some (some 0xFFCD34)
    ∧ (IMG_LoadPNG_RW (sample_host ByteOrder.SDL_LIL_ENDIAN)
        (sample_engine (rgb_info 16 0x1234 0xABCD 0xFFFF) (rgb_info 8 0x1234 0xABCD 0xFFFF) true)
        (some sample_stream)).surface.map
          (fun sf => (channel_of sf.format.Rmask 0xFFCD34, channel_of sf.format.Gmask 0xFFCD34,
            channel_of sf.format.Bmask 0xFFCD34))
        = some (0x34, 0xCD, 0xFF)
    ∧ (strip_16_sample 0x1234, strip_16_sample 0xABCD, strip_16_sample 0xFFFF)
        = (0x12, 0xAB, 0xFF)
    ∧ (IMG_LoadPNG_RW (sample_host ByteOrder.SDL_LIL_ENDIAN)
        (sample_engine (rgb_info 16 0x1234 0xABCD 0xFFFF) (rgb_info 8 0x1234 0xABCD 0xFFFF) true)
        (some sample_stream)).surface.map
          (fun sf => SDL_MapRGB (sample_host ByteOrder.SDL_LIL_ENDIAN) sf.format
            (strip_16_sample 0x1234) (strip_16_sample 0xABCD) (strip_16_sample 0xFFFF))
        = some 0xFFAB12 := by
  refine ⟨by decide, by decide, by decide, by decide, by decide⟩

/-- Witness for C7: the engine fails in `png_read_image` after 40 bytes have
been read from position 3; the call returns NULL with the stream back at
position 3. -/
theorem IMG_LoadPNG_RW_error_restores_stream_witness :
    (sample_host ByteOrder.SDL_LIL_ENDIAN).IMG_Init_PNG = true
    ∧ (IMG_LoadPNG_RW (sample_host ByteOrder.SDL_LIL_ENDIAN)
        (sample_engine gray_info gray_info false) (some sample_stream)).error
        = some "Error reading the PNG file."
    ∧ (IMG_LoadPNG_RW (sample_host ByteOrder.SDL_LIL_ENDIAN)
        (sample_engine gray_info gray_info false) (some sample_stream)).surface = none
    ∧ (IMG_LoadPNG_RW (sample_host ByteOrder.SDL_LIL_ENDIAN)
        (sample_engine gray_info gray_info false) (some sample_stream)).src
        = some sample_stream
    ∧ (IMG_LoadPNG_RW (sample_host ByteOrder.SDL_LIL_ENDIAN)
        (sample_engine gray_info gray_info false) (some sample_stream)).src.map SDL_RWtell
        = some (SDL_RWtell sample_stream)
    ∧ (IMG_LoadPNG_RW (sample_host ByteOrder.SDL_LIL_ENDIAN)
        (sample_engine gray_info gray_info false) (some sample_stream)).seeks
        = [SDL_RWtell sample_stream]
    ∧ (IMG_LoadPNG_RW (sample_host ByteOrder.SDL_LIL_ENDIAN)
        (sample_engine gray_info gray_info false) (some sample_stream)).freed_surface
        = (IMG_LoadPNG_RW_body (sample_host ByteOrder.SDL_LIL_ENDIAN)
            (sample_engine gray_info gray_info false) sample_stream).surface.isSome :=
  ⟨rfl, by decide,
    (IMG_LoadPNG_RW_error_restores_stream (sample_host ByteOrder.SDL_LIL_ENDIAN)
      (sample_engine gray_info gray_info false) sample_stream rfl).1 (by decide)⟩

end IMG_png
